import Mathlib

/-!
Verification of the TasteMap Taste Profile & Recommendation Engine.

This file gives a shallow embedding, in Lean 4, of the algorithmic core of the
taste-map repository and proves (or refutes) the specification claims about it.
JavaScript numbers are modelled by exact rationals (ℚ); the one operation that
genuinely leaves ℚ, the square root inside cosine similarity, is modelled over
ℝ.  JavaScript objects read with an `x[k] || d` default are modelled as total
functions (for the fixed attribute set) or as association lists with a
defaulting lookup (for string-keyed maps).  Fallible code is modelled with
Option / Except values; a JavaScript exception escaping a function is an
`Except.error` (or a dedicated `thrown` constructor).

Sources embedded here:
* the fixed-attribute engine of `worker/README.md` (tasteProfile engine:
  `calculateTasteProfile`, `getNeutralProfile`, `calculateCosineSimilarity`,
  `findSimilarMovies`, `isProfileNeutral`, `calculateAttributeStrength`),
  together with `filmAttributes.js` (`FILM_ATTRIBUTES`, `SAMPLE_MOVIES`,
  `MOVIE_MAP`) as reproduced in `frontend/tests/dataStore.test.js`;
* the frontend store profile builder `frontend/dataStore.js`
  (`getTasteProfile`, `_getEmptyProfile`);
* the worker recommendation engine `worker/src/recommendations.js`;
* the api recommendation engine `api/src/recommendations.js`;
* the discovered-dimension profile builders `worker/src/tasteProfile.js` and
  `api/src/tasteProfile.js`.
-/

namespace TasteMap

/-! ## Fixed attribute registry (filmAttributes.js) -/

/-- The six fixed film attributes of `FILM_ATTRIBUTES` (id strings `action`,
`drama`, `comedy`, `dark`, `uplifting`, `artistic`). -/
inductive Attr where
  | action
  | drama
  | comedy
  | dark
  | uplifting
  | artistic
deriving DecidableEq, Repr

/-- The fixed, ordered attribute list `FILM_ATTRIBUTES`. -/
def FILM_ATTRIBUTES : List Attr :=
  [.action, .drama, .comedy, .dark, .uplifting, .artistic]

/-- A profile or movie attribute vector.  The JS code always reads these
objects as `map[attr.id] || 0` over the fixed attribute ids, so a total
function on `Attr` is a faithful model (a missing key and a stored 0 are
indistinguishable to every reader in the engine). -/
abbrev AttrMap := Attr → ℚ

/-- A movie of `filmAttributes.js` (class `Movie`).  `attributes` models the
frozen attribute object; `Movie.getAttributeScore` returns
`attributes[attributeId] || 0`, which is the function itself here. -/
structure Movie where
  id : String
  title : String
  year : Nat
  attributes : AttrMap

/-- A user rating (class `Rating` of `filmAttributes.js`). -/
structure Rating where
  movieId : String
  userId : String
  score : ℚ
  timestamp : Nat

/-- The `Rating` constructor validation: integer score in `[1, 5]`. -/
def Rating.valid (r : Rating) : Prop :=
  1 ≤ r.score ∧ r.score ≤ 5 ∧ r.score.den = 1

/-- Attribute vector of `Mad Max: Fury Road` (`movie-1`). -/
def madMaxAttrs : AttrMap := fun a =>
  match a with
  | .action => 95/100
  | .drama => 4/10
  | .comedy => 1/10
  | .dark => 7/10
  | .uplifting => 5/10
  | .artistic => 85/100

/-- Attribute vector of `The Shawshank Redemption` (`movie-2`). -/
def shawshankAttrs : AttrMap := fun a =>
  match a with
  | .action => 2/10
  | .drama => 1
  | .comedy => 15/100
  | .dark => 6/10
  | .uplifting => 9/10
  | .artistic => 7/10

/-- Attribute vector of `Superbad` (`movie-3`). -/
def superbadAttrs : AttrMap := fun a =>
  match a with
  | .action => 3/10
  | .drama => 4/10
  | .comedy => 95/100
  | .dark => 2/10
  | .uplifting => 7/10
  | .artistic => 3/10

/-- Attribute vector of `Blade Runner 2049` (`movie-4`). -/
def bladeRunnerAttrs : AttrMap := fun a =>
  match a with
  | .action => 6/10
  | .drama => 8/10
  | .comedy => 5/100
  | .dark => 85/100
  | .uplifting => 3/10
  | .artistic => 95/100

/-- Attribute vector of `The Grand Budapest Hotel` (`movie-5`). -/
def budapestAttrs : AttrMap := fun a =>
  match a with
  | .action => 4/10
  | .drama => 6/10
  | .comedy => 7/10
  | .dark => 3/10
  | .uplifting => 6/10
  | .artistic => 9/10

/-- Attribute vector of `Die Hard` (`movie-6`). -/
def dieHardAttrs : AttrMap := fun a =>
  match a with
  | .action => 9/10
  | .drama => 5/10
  | .comedy => 4/10
  | .dark => 4/10
  | .uplifting => 6/10
  | .artistic => 4/10

/-- Attribute vector of movie-7 (the source title carries an apostrophe, dropped here). -/
def schindlerAttrs : AttrMap := fun a =>
  match a with
  | .action => 3/10
  | .drama => 1
  | .comedy => 0
  | .dark => 95/100
  | .uplifting => 4/10
  | .artistic => 85/100

/-- Attribute vector of `Moonrise Kingdom` (`movie-8`). -/
def moonriseAttrs : AttrMap := fun a =>
  match a with
  | .action => 2/10
  | .drama => 7/10
  | .comedy => 6/10
  | .dark => 2/10
  | .uplifting => 8/10
  | .artistic => 85/100

/-- Attribute vector of `John Wick` (`movie-9`). -/
def johnWickAttrs : AttrMap := fun a =>
  match a with
  | .action => 95/100
  | .drama => 5/10
  | .comedy => 15/100
  | .dark => 7/10
  | .uplifting => 4/10
  | .artistic => 75/100

/-- Attribute vector of `Amélie` (`movie-10`). -/
def amelieAttrs : AttrMap := fun a =>
  match a with
  | .action => 1/10
  | .drama => 6/10
  | .comedy => 7/10
  | .dark => 2/10
  | .uplifting => 95/100
  | .artistic => 9/10

/-- The sample catalog `SAMPLE_MOVIES` of `filmAttributes.js`. -/
def SAMPLE_MOVIES : List Movie :=
  [⟨"movie-1", "Mad Max: Fury Road", 2015, madMaxAttrs⟩,
   ⟨"movie-2", "The Shawshank Redemption", 1994, shawshankAttrs⟩,
   ⟨"movie-3", "Superbad", 2007, superbadAttrs⟩,
   ⟨"movie-4", "Blade Runner 2049", 2017, bladeRunnerAttrs⟩,
   ⟨"movie-5", "The Grand Budapest Hotel", 2014, budapestAttrs⟩,
   ⟨"movie-6", "Die Hard", 1988, dieHardAttrs⟩,
   ⟨"movie-7", "Schindlers List", 1993, schindlerAttrs⟩,
   ⟨"movie-8", "Moonrise Kingdom", 2012, moonriseAttrs⟩,
   ⟨"movie-9", "John Wick", 2014, johnWickAttrs⟩,
   ⟨"movie-10", "Amélie", 2001, amelieAttrs⟩]

/-- The lookup object `MOVIE_MAP` (movie id → movie). -/
def MOVIE_MAP : String → Option Movie := fun i =>
  SAMPLE_MOVIES.find? (fun m => m.id == i)

/-! ## Fixed-variant profile builder (worker README taste profile engine) -/

/-- Neutral profile returned for an empty rating history by the engine
(`getNeutralProfile`): every attribute 0.5. -/
def getNeutralProfile : AttrMap := fun _ => 1/2

/-- Engine `calculateTasteProfile(ratings, movieMap)`: for each attribute a
rating-score-weighted average of the movie attribute scores.  Ratings whose
movie id is not in the map are skipped (the JS `if (!movie) return`); per
attribute, if the accumulated weight is positive the weighted average is
returned, otherwise the neutral 0.5.  The JS accumulates `attributeSums` and
`attributeWeights` in one pass; the two list sums below are those
accumulators. -/
def calculateTasteProfile (ratings : List Rating)
    (movieMap : String → Option Movie) : AttrMap :=
  if ratings.isEmpty then getNeutralProfile
  else
    fun attr =>
      let contributions := ratings.filterMap fun r =>
        (movieMap r.movieId).map fun movie =>
          (movie.attributes attr * r.score, r.score)
      let attributeSum := (contributions.map Prod.fst).sum
      let attributeWeight := (contributions.map Prod.snd).sum
      if attributeWeight > 0 then attributeSum / attributeWeight else 1/2

/-- The `itemScore(i, d)` notion used by the specification: the attribute score of the rated item,
0 when the item cannot be resolved. -/
def itemScore (movieMap : String → Option Movie) (r : Rating) (attr : Attr) : ℚ :=
  match movieMap r.movieId with
  | some movie => movie.attributes attr
  | none => 0

/-! ## Frontend store profile builder (frontend/dataStore.js) -/

namespace DataStore

/-- Result object of `UserDataStore.getTasteProfile`: a `success` flag plus
the profile data.  The catch-branch of the JS never fires in this pure
model, so `success` is always `true` and no error field is needed. -/
structure StoreProfileResult where
  success : Bool
  data : AttrMap

/-- Frontend `_getEmptyProfile`: every attribute 0 (not 0.5). -/
def getEmptyProfile : AttrMap := fun _ => 0

/-- Frontend `getTasteProfile`, reading the module-level `MOVIE_MAP`.  Unlike
the engine variant, a zero accumulated weight defaults the attribute to 0,
and the empty history returns `_getEmptyProfile` (all zeros). -/
def getTasteProfile (ratings : List Rating) : StoreProfileResult :=
  if ratings.isEmpty then ⟨true, getEmptyProfile⟩
  else
    ⟨true, fun attr =>
      let contributions := ratings.filterMap fun r =>
        (MOVIE_MAP r.movieId).map fun movie =>
          (movie.attributes attr * r.score, r.score)
      let attributeSum := (contributions.map Prod.fst).sum
      let attributeWeight := (contributions.map Prod.snd).sum
      if attributeWeight > 0 then attributeSum / attributeWeight else 0⟩

end DataStore

/-! ## Similarity scorer (worker README engine) -/

/-- Dot product accumulator of `calculateCosineSimilarity` (the JS builds it
in the same loop as the squared magnitudes). -/
def dotProduct (profileA profileB : AttrMap) : ℚ :=
  (FILM_ATTRIBUTES.map fun a => profileA a * profileB a).sum

/-- Squared magnitude accumulator of `calculateCosineSimilarity` (the value
of `magnitudeA` before `Math.sqrt` is applied). -/
def magnitudeSq (p : AttrMap) : ℚ :=
  (FILM_ATTRIBUTES.map fun a => p a * p a).sum

/-- Engine `calculateCosineSimilarity`: `(A · B) / (‖A‖ · ‖B‖)` with an exact
0 returned when either magnitude is 0.  The square root forces this single
definition into ℝ. -/
noncomputable def calculateCosineSimilarity (profileA profileB : AttrMap) : ℝ :=
  let magnitudeA : ℝ := Real.sqrt (magnitudeSq profileA)
  let magnitudeB : ℝ := Real.sqrt (magnitudeSq profileB)
  if magnitudeA = 0 ∨ magnitudeB = 0 then 0
  else (dotProduct profileA profileB : ℝ) / (magnitudeA * magnitudeB)

/-- Engine `isProfileNeutral`: the attribute values (a missing or zero entry
reads as 0.5 through the JS `profile[attr.id] || 0.5`) must average within
0.1 of 0.5 and have variance below 0.01. -/
def isProfileNeutral (profile : AttrMap) : Bool :=
  let values := FILM_ATTRIBUTES.map fun a =>
    if profile a = 0 then 1/2 else profile a
  let average := values.sum / (values.length : ℚ)
  let variance := (values.map fun v => (v - average) ^ 2).sum / (values.length : ℚ)
  decide (|average - 1/2| < 1/10) && decide (variance < 1/100)

/-- Engine `calculateAttributeStrength`: mean absolute deviation of the
attribute values from 0.5, normalized by the maximal deviation 0.5. -/
def calculateAttributeStrength (attributes : AttrMap) : ℚ :=
  let values := FILM_ATTRIBUTES.map fun a => attributes a
  let deviations := values.map fun v => |v - 1/2|
  let averageDeviation := deviations.sum / (deviations.length : ℚ)
  averageDeviation / (1/2)

/-- A scored movie as produced by `findSimilarMovies`. -/
structure ScoredMovie where
  movie : Movie
  similarity : ℝ

/-- Engine `findSimilarMovies`: filter out excluded ids, score each movie
(attribute strength when the profile is neutral, cosine similarity
otherwise), sort descending by similarity (JS `sort` is stable; the
comparator `b.similarity - a.similarity` is the boolean order below), and
keep the first `topN`. -/
noncomputable def findSimilarMovies (userProfile : AttrMap) (allMovies : List Movie)
    (topN : Nat := 5) (excludeMovieIds : List String := []) : List ScoredMovie :=
  if allMovies.isEmpty then []
  else
    let isNeutral := isProfileNeutral userProfile
    let moviesWithSimilarity :=
      (allMovies.filter fun movie => !(excludeMovieIds.contains movie.id)).map
        fun movie =>
          { movie := movie
            similarity :=
              if isNeutral then ((calculateAttributeStrength movie.attributes : ℚ) : ℝ)
              else calculateCosineSimilarity userProfile movie.attributes }
    (moviesWithSimilarity.mergeSort fun a b => decide (b.similarity ≤ a.similarity)).take topN

/-! ## Worker recommendation engine (worker/src/recommendations.js) -/

namespace Worker

/-- Cache TTL in hours. -/
def CACHE_EXPIRY_HOURS : Nat := 24

/-- Default recommendation count. -/
def DEFAULT_COUNT : Nat := 10

/-- Hard maximum recommendation count. -/
def MAX_COUNT : Nat := 50

/-- A movie row of the `movies` D1 table as read by the worker.  JSON string
columns (`genres`, `plot_keywords`) are modelled already parsed; `none`
models a NULL column (note the JS also treats the empty string as falsy,
which for parsed-JSON columns cannot occur). -/
structure WMovie where
  id : Nat
  title : String
  year : Option Int
  genres : Option (List String)
  runtime_minutes : Option Nat
  director : Option String
  user_rating : Option Nat
  plot_keywords : Option (List String)
  overview : Option String

/-- JS truthiness of a nullable numeric column: `null` and `0` are falsy. -/
def truthyNum : Option Nat → Bool
  | none => false
  | some n => n != 0

/-- JS truthiness of a nullable string column: `null` and `""` are falsy. -/
def truthyStr : Option String → Bool
  | none => false
  | some s => s != ""

/-- One entry of the worker profile `directors` list. -/
structure DirectorAffinity where
  name : String
  count : Nat
  avg_rating : ℚ

/-- The taste profile object reconstructed by the worker `loadTasteProfile`.
String-keyed score objects are association lists in insertion order. -/
structure WProfile where
  genres : List (String × ℚ)
  eras : List (String × ℚ)
  themes : List String
  runtime_preference : String
  directors : List DirectorAffinity
  sample_size : Nat
  confidence : ℚ

/-- Defaulting read `obj[key] || 0` on a string-keyed score object. -/
def lookupD (l : List (String × ℚ)) (k : String) : ℚ :=
  match l.find? (fun p => p.1 == k) with
  | some p => p.2
  | none => 0

/-- Options accepted by the recommendation endpoints. -/
structure RecOptions where
  mood : Option String := none
  genre_filter : Option (List String) := none
  era_filter : Option String := none
  count : Option Nat := none

/-- A row of the `recommendations` cache table (worker schema):
`recommended_movie_ids` is stored as a JSON id array. -/
structure CacheEntry where
  context : String
  movie_ids : List Nat
  reasoning : String
  confidence : ℚ
  created_at : Nat
  expires_at : Nat

/-- The database state the worker engine reads: the movie table, the
reconstructed taste profile (`loadTasteProfile` returns `null` exactly when
the `taste_profile` table is empty; the row-by-row reconstruction is
abstracted into the resulting object), and the recommendation cache table. -/
structure WDb where
  movies : List WMovie
  profile : Option WProfile
  cache : List CacheEntry

/-- Value produced by the worker `getCachedRecommendations` on a hit. -/
structure CachedRecs where
  movie_ids : List Nat
  reasoning : String
  confidence : ℚ
  created_at : Nat

/-- Worker `getCachedRecommendations`: the newest unexpired cache row with
the given context (`WHERE context = ? AND expires_at > now ORDER BY
created_at DESC LIMIT 1`). -/
def getCachedRecommendations (cache : List CacheEntry) (context : String)
    (now : Nat) : Option CachedRecs :=
  let valid := cache.filter fun e => e.context == context && decide (now < e.expires_at)
  match (valid.mergeSort fun a b => decide (b.created_at ≤ a.created_at)).head? with
  | some e => some ⟨e.movie_ids, e.reasoning, e.confidence, e.created_at⟩
  | none => none

/-- Worker `applyFilters`: genre filter (movie must carry at least one of
the requested genres), then era filter.  A NULL year is coerced to 0 by the
JS comparison operators, so `classic` admits it and the other eras reject
it. -/
def applyFilters (movies : List WMovie) (options : RecOptions) : List WMovie :=
  let afterGenre :=
    match options.genre_filter with
    | some gf =>
      if gf.length > 0 then
        movies.filter fun movie =>
          match movie.genres with
          | none => false
          | some genres => gf.any fun g => genres.contains g
      else movies
    | none => movies
  match options.era_filter with
  | some era =>
    if era != "" then
      afterGenre.filter fun movie =>
        let y : Int := match movie.year with | some y => y | none => 0
        if era == "classic" then decide (y < 1980)
        else if era == "modern" then decide (1980 ≤ y) && decide (y < 2010)
        else if era == "recent" then decide (2010 ≤ y)
        else true
    else afterGenre
  | none => afterGenre

/-- Decade label of a year: `Math.floor(year / 10) * 10` with an `s`
suffix. -/
def decadeLabel (year : Int) : String :=
  toString (10 * year.fdiv 10) ++ "s"

/-- Worker `calculateBasicMatchScore`: average of the available factors
(genre score average, era score, runtime match), 0.5 when none is
available.  A movie whose parsed genre list is empty would produce NaN in
JS (0 divided by 0); in ℚ that division is 0 — no claim exercises it. -/
def calculateBasicMatchScore (movie : WMovie) (profile : WProfile) : ℚ :=
  let genreFactor : Option ℚ :=
    match movie.genres with
    | some genres =>
      if profile.genres.length > 0 then
        some ((genres.map fun g => lookupD profile.genres g).sum / (genres.length : ℚ))
      else none
    | none => none
  let eraFactor : Option ℚ :=
    match movie.year with
    | some y =>
      if y != 0 && profile.eras.length > 0 then
        some (lookupD profile.eras (decadeLabel y))
      else none
    | none => none
  let runtimeFactor : Option ℚ :=
    match movie.runtime_minutes with
    | some r =>
      if r != 0 && profile.runtime_preference != "" then
        some
          (if profile.runtime_preference == "short" then
            (if r < 90 then 1 else 3/10)
          else if profile.runtime_preference == "medium" then
            (if 90 ≤ r && r ≤ 150 then 1 else 3/10)
          else if profile.runtime_preference == "long" then
            (if r > 150 then 1 else 3/10)
          else 3/10)
      else none
    | none => none
  let factors := [genreFactor, eraFactor, runtimeFactor].filterMap id
  if factors.length > 0 then factors.sum / (factors.length : ℚ) else 1/2

/-- Worker `generateBasicReasoning` (the source writes the director reason
with a contraction; the text content is irrelevant to every claim). -/
def generateBasicReasoning (movie : WMovie) (profile : WProfile) : String :=
  let genreReasons : List String :=
    match movie.genres with
    | some genres =>
      match genres.find? (fun g => decide (lookupD profile.genres g > 1/2)) with
      | some topGenre => ["matches your love of " ++ topGenre]
      | none => []
    | none => []
  let eraReasons : List String :=
    match movie.year with
    | some y =>
      if y != 0 && decide (lookupD profile.eras (decadeLabel y) > 1/2) then
        ["from your favorite era (" ++ decadeLabel y ++ ")"]
      else []
    | none => []
  let directorReasons : List String :=
    match movie.director with
    | some d =>
      if d != "" then
        match profile.directors.find? (fun da => da.name == d) with
        | some fav =>
          ["directed by " ++ d ++ " (you have loved " ++ toString fav.count ++ " films)"]
        | none => []
      else []
    | none => []
  let reasons := genreReasons ++ eraReasons ++ directorReasons
  if reasons.isEmpty then "Similar to movies in your collection"
  else "Recommended because it " ++ String.intercalate " and " reasons

/-- One entry of the JSON ranking array parsed out of the oracle response. -/
structure OracleRanking where
  title : String
  reasoning : String

/-- An oracle-ranked candidate (`{movie, reasoning, ai_powered}` in JS). -/
structure AIRanked where
  movie : WMovie
  reasoning : String

/-- Worker `rankWithAI`.  The oracle argument is `none` for every failure
the surrounding `try` swallows (the AI binding throwing or timing out, no
JSON array in the response text, `JSON.parse` raising), in which case the
JS returns `null` to request fallback.  When a ranking array was parsed,
each entry is looked up among the candidates by title, and an entry whose
title is not a candidate becomes `null` — the JS does not filter those
out. -/
def rankWithAI (candidates : List WMovie) (oracle : Option (List OracleRanking)) :
    Option (List (Option AIRanked)) :=
  oracle.map fun rankings =>
    rankings.map fun r =>
      (candidates.find? fun c => c.title == r.title).map fun movie =>
        { movie := movie, reasoning := r.reasoning }

/-- A recommendation as returned by the worker engine. -/
structure WRec where
  movie : WMovie
  match_score : ℚ
  reasoning : String

/-- The observable outcome of a worker `generateRecommendations` call:
a JS exception escaping the call, an error object (whose
`recommendations` field is empty), or a successful result. -/
inductive WOutcome where
  | thrown (msg : String)
  | errorResult (msg : String)
  | result (recommendations : List WRec) (profile_confidence : ℚ)
      (cached : Bool) (ai_powered : Bool)

/-- JS `parseFloat(x.toFixed(2))`: rounding to two decimal places (ties to
the larger value per the `toFixed` specification). -/
def toFixed2 (x : ℚ) : ℚ := (⌊x * 100 + 1/2⌋ : ℚ) / 100

/-- Worker cached-path response body: fetch each cached id (first `count`
only), drop ids that no longer resolve, and attach the decreasing scores
`1 - i * 0.05` and the cached reasoning text. -/
def cachedResponse (db : WDb) (cached : CachedRecs) (count : Nat) : List WRec :=
  (((cached.movie_ids.take count).filterMap fun i =>
      db.movies.find? fun m => m.id == i).enum).map fun p =>
    { movie := p.2, match_score := 1 - (p.1 : ℚ) * (5/100), reasoning := cached.reasoning }

/-- Worker AI-path recommendation list: `aiRanked.slice(0, count).map(r =>
({movie: r.movie, ...}))`.  Reading `.movie` on a `null` entry raises a
TypeError, which escapes `generateRecommendations`. -/
def aiRecommendations (ranked : List (Option AIRanked)) (count : Nat) :
    Except String (List WRec) :=
  if (ranked.take count).all (fun r => r.isSome) then
    .ok ((((ranked.take count).filterMap id).enum).map fun p =>
      { movie := p.2.movie
        match_score := toFixed2 (1 - (p.1 : ℚ) * (5/100))
        reasoning := p.2.reasoning })
  else .error "TypeError: Cannot read properties of null (reading movie)"

/-- Worker fallback recommendation list: first `count` locally scored
candidates with rounded scores and templated reasoning. -/
def fallbackRecommendations (sorted : List (WMovie × ℚ)) (profile : WProfile)
    (count : Nat) : List WRec :=
  (sorted.take count).map fun s =>
    { movie := s.1, match_score := toFixed2 s.2, reasoning := generateBasicReasoning s.1 profile }

/-- Primary genre key used by the diversity pass: `genres[0]`, which is
`undefined` (modelled `none`) for an empty parsed list. -/
def primaryGenre (genres : List String) : Option String := genres.head?

/-- One step of the worker diversity loop.  State: admitted list, deferred
list, and the `genreCounts` object (a total map, 0 for an absent key).  A
movie without a genres column is admitted without counting.  The admission
test is the literal `!genreCounts[g] || genreCounts[g] < cap`. -/
def diversityStep (cap : Nat)
    (state : List WRec × List WRec × (Option String → Nat)) (rec : WRec) :
    List WRec × List WRec × (Option String → Nat) :=
  match rec.movie.genres with
  | none => (state.1 ++ [rec], state.2.1, state.2.2)
  | some genres =>
    let key := primaryGenre genres
    let counts := state.2.2
    if counts key == 0 || counts key < cap then
      (state.1 ++ [rec], state.2.1, fun k => if k == key then counts key + 1 else counts k)
    else
      (state.1, state.2.1 ++ [rec], counts)

/-- The primary walk of the worker diversity pass: the fold state after
processing the whole ranked list (admitted list, deferred list, genre
counts). -/
def diversityFold (recommendations : List WRec) (cap : Nat) :
    List WRec × List WRec × (Option String → Nat) :=
  recommendations.foldl (diversityStep cap) ([], [], fun _ => 0)

/-- Worker diversity pass: cap `Math.ceil(count / 3)` per primary genre on
a first walk, then refill from the deferred list while the admitted list is
shorter than `count`. -/
def diversityPass (recommendations : List WRec) (count : Nat) : List WRec :=
  let cap := (count + 2) / 3
  let state := diversityFold recommendations cap
  state.1 ++ state.2.1.take (count - state.1.length)

/-- Effective count `Math.min(options.count || DEFAULT_COUNT, MAX_COUNT)`
(0 is falsy, so it also selects the default). -/
def effectiveCount (count : Option Nat) : Nat :=
  min (match count with
       | none => DEFAULT_COUNT
       | some 0 => DEFAULT_COUNT
       | some c => c) MAX_COUNT

/-- Worker cache context string
`mood` falling back to `any`, the comma-joined genre filter falling back to
`all`, the era filter falling back to `all`, and the count — joined with pipes. -/
def buildContext (options : RecOptions) (count : Nat) : String :=
  let mood := match options.mood with
    | some m => if m == "" then "any" else m
    | none => "any"
  let genres := match options.genre_filter with
    | some gf =>
      let j := String.intercalate "," gf
      if j == "" then "all" else j
    | none => "all"
  let era := match options.era_filter with
    | some e => if e == "" then "all" else e
    | none => "all"
  String.intercalate "|" [mood, genres, era, toString count]

/-- Worker `generateRecommendations`.  Inputs besides the database state:
the parsed oracle outcome (see `rankWithAI`), the current time, and whether
the best-effort cache INSERT fails (the JS swallows that failure in a
`try/catch`).  Returns the call outcome together with the cache table after
the call. -/
def generateRecommendations (db : WDb) (oracle : Option (List OracleRanking))
    (options : RecOptions) (now : Nat) (cacheWriteFails : Bool) :
    WOutcome × List CacheEntry :=
  let count := effectiveCount options.count
  match db.profile with
  | none =>
    (.errorResult "No taste profile found. Please calculate taste profile first.", db.cache)
  | some profile =>
    let context := buildContext options count
    match getCachedRecommendations db.cache context now with
    | some cached =>
      (.result (cachedResponse db cached count) profile.confidence true false, db.cache)
    | none =>
      let unrated := db.movies.filter fun m => !(truthyNum m.user_rating)
      let filtered := applyFilters unrated options
      if filtered.isEmpty then
        (.errorResult "No movies match the specified filters", db.cache)
      else
        let scored := filtered.map fun movie => (movie, calculateBasicMatchScore movie profile)
        let sorted := scored.mergeSort fun a b => decide (b.2 ≤ a.2)
        let topCandidates := (sorted.take 50).map Prod.fst
        let aiRanked := rankWithAI topCandidates oracle
        let usedAI := match aiRanked with
          | some ranked => ranked.length > 0
          | none => false
        let recsE : Except String (List WRec) :=
          if usedAI then aiRecommendations (aiRanked.getD []) count
          else .ok (fallbackRecommendations sorted profile count)
        match recsE with
        | .error msg => (.thrown msg, db.cache)
        | .ok recommendations =>
          let diversified := diversityPass recommendations count
          let entry : CacheEntry :=
            { context := context
              movie_ids := diversified.map fun r => r.movie.id
              reasoning :=
                if usedAI then "AI-powered recommendations based on your taste profile"
                else "Recommendations based on genre and era preferences"
              confidence := profile.confidence
              created_at := now
              expires_at := now + CACHE_EXPIRY_HOURS * 60 * 60 }
          (.result diversified profile.confidence false usedAI,
           if cacheWriteFails then db.cache else db.cache ++ [entry])

/-- Rated score of a movie row, with the JS null-to-0 coercion used by
comparison operators. -/
def ratingOf (m : WMovie) : Nat := m.user_rating.getD 0

/-! ### Worker discovered-variant profile builder (worker/src/tasteProfile.js) -/

/-- Minimum sample size of the discovered-variant profile builders. -/
def MIN_SAMPLE_SIZE : Nat := 20

/-- Movies grouped by rating tier (worker `groupMoviesByRating`). -/
structure RatingGroups where
  loved : List WMovie
  liked : List WMovie
  neutral : List WMovie
  disliked : List WMovie

/-- Worker `groupMoviesByRating`: loved 9-10, liked 7-8, neutral 5-6,
disliked 1-4. -/
def groupMoviesByRating (movies : List WMovie) : RatingGroups :=
  { loved := movies.filter fun m => decide (9 ≤ ratingOf m)
    liked := movies.filter fun m => decide (7 ≤ ratingOf m) && decide (ratingOf m ≤ 8)
    neutral := movies.filter fun m => decide (5 ≤ ratingOf m) && decide (ratingOf m ≤ 6)
    disliked := movies.filter fun m => decide (1 ≤ ratingOf m) && decide (ratingOf m ≤ 4) }

/-- JS `obj[k] = (obj[k] || 0) + v` on an object modelled as an association
list kept in key insertion order. -/
def bumpBy (l : List (String × ℚ)) (k : String) (v : ℚ) : List (String × ℚ) :=
  match l.find? (fun p => p.1 == k) with
  | some _ => l.map fun p => if p.1 == k then (p.1, p.2 + v) else p
  | none => l ++ [(k, v)]

/-- Counting variant of `bumpBy`. -/
def bumpCount (l : List (String × Nat)) (k : String) (n : Nat) : List (String × Nat) :=
  match l.find? (fun p => p.1 == k) with
  | some _ => l.map fun p => if p.1 == k then (p.1, p.2 + n) else p
  | none => l ++ [(k, n)]

/-- JS `parseFloat(x.toFixed(1))`. -/
def toFixed1 (x : ℚ) : ℚ := (⌊x * 10 + 1/2⌋ : ℚ) / 10

/-- Worker `extractGenrePreferences`: rating-weighted genre accumulation
over all tiers followed by max-normalization (`Math.max(...values, 1)`) and
2-decimal rounding.  The parallel `genreCounts` accumulator of the source
is never read afterwards and is omitted. -/
def extractGenrePreferences (grouped : RatingGroups) : List (String × ℚ) :=
  let allMovies := grouped.loved ++ grouped.liked ++ grouped.neutral ++ grouped.disliked
  let genreScores := allMovies.foldl
    (fun acc movie =>
      match movie.genres with
      | none => acc
      | some genres =>
        let weight := (ratingOf movie : ℚ) / 10
        genres.foldl (fun acc2 genre => bumpBy acc2 genre weight) acc)
    []
  let maxScore := (genreScores.map Prod.snd).foldl max 1
  genreScores.map fun p => (p.1, toFixed2 (p.2 / maxScore))

/-- Worker `extractEraPreferences`: like the genre extraction but keyed by
decade label; a NULL or 0 year is skipped by the truthiness guard. -/
def extractEraPreferences (grouped : RatingGroups) : List (String × ℚ) :=
  let allMovies := grouped.loved ++ grouped.liked ++ grouped.neutral ++ grouped.disliked
  let eraScores := allMovies.foldl
    (fun acc movie =>
      match movie.year with
      | some y =>
        if y != 0 then bumpBy acc (decadeLabel y) ((ratingOf movie : ℚ) / 10) else acc
      | none => acc)
    []
  let maxScore := (eraScores.map Prod.snd).foldl max 1
  eraScores.map fun p => (p.1, toFixed2 (p.2 / maxScore))

/-- Accumulator of `extractRuntimePreference`: score and count per runtime
bucket. -/
structure RuntimeAcc where
  shortScore : ℚ := 0
  shortCount : Nat := 0
  mediumScore : ℚ := 0
  mediumCount : Nat := 0
  longScore : ℚ := 0
  longCount : Nat := 0

/-- Worker `extractRuntimePreference`: bucket the loved and liked movies by
runtime, then return the bucket with the highest average rating (iterating
short, medium, long with initial best `medium`/0 and a strict
comparison). -/
def extractRuntimePreference (grouped : RatingGroups) : String :=
  let acc := (grouped.loved ++ grouped.liked).foldl
    (fun (acc : RuntimeAcc) movie =>
      match movie.runtime_minutes with
      | none => acc
      | some r =>
        if r == 0 then acc
        else if r < 90 then
          { acc with shortScore := acc.shortScore + (ratingOf movie : ℚ),
                     shortCount := acc.shortCount + 1 }
        else if r ≤ 150 then
          { acc with mediumScore := acc.mediumScore + (ratingOf movie : ℚ),
                     mediumCount := acc.mediumCount + 1 }
        else
          { acc with longScore := acc.longScore + (ratingOf movie : ℚ),
                     longCount := acc.longCount + 1 })
    {}
  let buckets : List (String × ℚ × Nat) :=
    [("short", acc.shortScore, acc.shortCount),
     ("medium", acc.mediumScore, acc.mediumCount),
     ("long", acc.longScore, acc.longCount)]
  (buckets.foldl
    (fun (best : String × ℚ) bucket =>
      if bucket.2.2 == 0 then best
      else
        let avg := bucket.2.1 / (bucket.2.2 : ℚ)
        if avg > best.2 then (bucket.1, avg) else best)
    ("medium", 0)).1

/-- Worker `extractDirectorAffinity`: accumulate score and count per
director over the loved movies, sort by count descending (stable), keep the
top 5. -/
def extractDirectorAffinity (loved : List WMovie) : List DirectorAffinity :=
  let acc := loved.foldl
    (fun (acc : List (String × ℚ × Nat)) movie =>
      match movie.director with
      | none => acc
      | some d =>
        if d == "" then acc
        else
          match acc.find? (fun p => p.1 == d) with
          | some _ =>
            acc.map fun p =>
              if p.1 == d then (p.1, p.2.1 + (ratingOf movie : ℚ), p.2.2 + 1) else p
          | none => acc ++ [(d, (ratingOf movie : ℚ), 1)])
    []
  ((acc.mergeSort fun a b => decide (b.2.2 ≤ a.2.2)).take 5).map fun p =>
    { name := p.1, count := p.2.2, avg_rating := toFixed1 (p.2.1 / (p.2.2 : ℚ)) }

/-- Outcome of the worker theme-extraction oracle call: the AI binding
threw, the response contained no JSON array, or a JSON theme array was
parsed. -/
inductive ThemesOutcome where
  | threw
  | noJson
  | parsed (themes : List String)

/-- Return value of `extractThemesWithAI`. -/
structure ThemesResult where
  themes : List String
  ai_powered : Bool
  error : Option String

/-- Keep the first occurrence of each element
(JS `arr.filter((k, i, arr) => arr.indexOf(k) === i)`). -/
def dedupFirst (l : List String) : List String :=
  l.foldl (fun acc k => if acc.contains k then acc else acc ++ [k]) []

/-- Worker `extractThemesWithAI`.  On a parsed JSON array: first 5 themes,
AI-powered.  On a response without a JSON array: first 5 distinct loved
keywords (of the first 50 collected), not AI-powered.  On a thrown error:
top 5 loved keywords by frequency, not AI-powered, with the error message
attached (the concrete message text is irrelevant to every claim). -/
def extractThemesWithAI (loved : List WMovie) (oracle : ThemesOutcome) : ThemesResult :=
  let lovedKeywords := ((loved.filterMap fun m => m.plot_keywords).flatten).take 50
  match oracle with
  | .parsed themes => { themes := themes.take 5, ai_powered := true, error := none }
  | .noJson => { themes := (dedupFirst lovedKeywords).take 5, ai_powered := false, error := none }
  | .threw =>
    let counts := ((loved.filterMap fun m => m.plot_keywords).flatten).foldl
      (fun acc k => bumpCount acc k 1) []
    { themes := ((counts.mergeSort fun a b => decide (b.2 ≤ a.2)).take 5).map Prod.fst
      ai_powered := false
      error := some "AI theme extraction failed" }

/-- Worker `calculateConfidence`: 0 below the minimum sample size, 1 from
100 ratings on, linear (rounded to 2 decimals) in between. -/
def calculateConfidence (sampleSize : Nat) : ℚ :=
  if sampleSize < MIN_SAMPLE_SIZE then 0
  else if 100 ≤ sampleSize then 1
  else toFixed2 (((sampleSize : ℚ) - (MIN_SAMPLE_SIZE : ℚ)) / (100 - (MIN_SAMPLE_SIZE : ℚ)))

/-- Full return object of the worker `calculateTasteProfile` (the
`calculated_at` timestamp is omitted). -/
structure WProfileResult where
  profile : WProfile
  ai_powered : Bool
  ai_error : Option String

/-- Outcome of the worker discovered-variant profile computation: either
the insufficient-data object `{error, sample_size, required}` or a computed
profile. -/
inductive WTasteOutcome where
  | insufficient (msg : String) (sample_size : Nat) (required : Nat)
  | computed (result : WProfileResult)

/-- Worker `calculateTasteProfile(db, ai)`: query the rated movies sorted by
rating descending, return the insufficient-data object below
`MIN_SAMPLE_SIZE`, otherwise extract all profile dimensions.  On the
computed path the source then replaces the stored `taste_profile` rows
(DELETE plus INSERTs) with this profile; that write is not needed by any
claim and is not modelled. -/
def calculateTasteProfile (db : WDb) (themesOracle : ThemesOutcome) : WTasteOutcome :=
  let ratedMovies := (db.movies.filter fun m => m.user_rating.isSome).mergeSort
    fun a b => decide (ratingOf b ≤ ratingOf a)
  if ratedMovies.length < MIN_SAMPLE_SIZE then
    .insufficient
      ("Insufficient data: need at least " ++ toString MIN_SAMPLE_SIZE ++
        " rated movies, found " ++ toString ratedMovies.length)
      ratedMovies.length MIN_SAMPLE_SIZE
  else
    let grouped := groupMoviesByRating ratedMovies
    let genres := extractGenrePreferences grouped
    let eras := extractEraPreferences grouped
    let runtimePreference := extractRuntimePreference grouped
    let directors := extractDirectorAffinity grouped.loved
    let themesResult := extractThemesWithAI grouped.loved themesOracle
    let confidence := calculateConfidence ratedMovies.length
    .computed
      { profile :=
          { genres := genres
            eras := eras
            themes := themesResult.themes
            runtime_preference := runtimePreference
            directors := directors
            sample_size := ratedMovies.length
            confidence := confidence }
        ai_powered := themesResult.ai_powered
        ai_error := themesResult.error }

end Worker

/-! ## Api recommendation engine (api/src/recommendations.js) -/

namespace Api

/-- Cache TTL in hours. -/
def CACHE_DURATION_HOURS : Nat := 24

/-- A movie row as read by the api engine.  Here `genres` and `director`
are raw comma-separated string columns. -/
structure AMovie where
  imdb_id : String
  title : String
  year : Option Int
  genres : Option String
  director : Option String
  overview : Option String
  tmdb_rating : Option ℚ
  runtime_minutes : Option Nat
  user_rating : Option Nat
  plot_keywords : Option (List String)

/-- Rated score of an api movie row with the JS null-to-0 coercion. -/
def aRatingOf (m : AMovie) : Nat := m.user_rating.getD 0

/-- The taste profile reconstructed by the api `loadTasteProfile`
(`directors` is a plain name list here). -/
structure AProfile where
  genres : List (String × ℚ)
  eras : List (String × ℚ)
  themes : List String
  directors : List String
  runtime_preference : Option String
  sample_size : Nat
  confidence : ℚ

/-- JS splitting on commas followed by trimming each part. -/
def splitTrim (s : String) : List String :=
  (s.splitOn ",").map String.trim

/-- Api `filterByGenre`: keep movies carrying at least one requested genre
(case-insensitive). -/
def filterByGenre (movies : List AMovie) (genreFilter : List String) : List AMovie :=
  if genreFilter.isEmpty then movies
  else
    movies.filter fun movie =>
      match movie.genres with
      | none => false
      | some gs =>
        if gs == "" then false
        else
          let movieGenres := splitTrim gs
          genreFilter.any fun genre =>
            movieGenres.any fun mg => mg.toLower == genre.toLower

/-- Api `filterByEra`: classic before 2000, modern 2000-2015, recent after
2015 (note the different boundaries from the worker engine); movies with a
falsy year are dropped. -/
def filterByEra (movies : List AMovie) (eraFilter : String) : List AMovie :=
  if eraFilter == "" then movies
  else
    movies.filter fun movie =>
      match movie.year with
      | none => false
      | some y =>
        if y == 0 then false
        else if eraFilter == "classic" then decide (y < 2000)
        else if eraFilter == "modern" then decide (2000 ≤ y) && decide (y ≤ 2015)
        else if eraFilter == "recent" then decide (y > 2015)
        else true

/-- Api `buildCacheKey`: `mood_genres_era` with the genre filter sorted
(JS default lexicographic sort) and joined; note an empty genre array is
truthy in JS, so it produces an empty middle segment rather than `any`. -/
def buildCacheKey (options : Worker.RecOptions) : String :=
  let mood := match options.mood with
    | some m => if m == "" then "any" else m
    | none => "any"
  let genres := match options.genre_filter with
    | some gf => String.intercalate "," (gf.mergeSort fun a b => decide (a ≤ b))
    | none => "any"
  let era := match options.era_filter with
    | some e => if e == "" then "any" else e
    | none => "any"
  mood ++ "_" ++ genres ++ "_" ++ era

/-- One recommendation as serialized into the api cache
(`recommended_movie_ids` JSON entries). -/
structure ACacheRec where
  imdb_id : String
  match_score : ℚ
  reasoning : String

/-- A row of the api `recommendations` cache table. -/
structure ACacheEntry where
  context : String
  recs : List ACacheRec
  confidence_score : ℚ
  created_at : Nat
  expires_at : Nat

/-- A recommendation with full movie data, as returned to the caller. -/
structure ARec where
  movie : AMovie
  match_score : ℚ
  reasoning : String

/-- The api database state (see `Worker.WDb`). -/
structure ADb where
  movies : List AMovie
  profile : Option AProfile
  cache : List ACacheEntry

/-- Value produced by the api `checkCache` on a hit. -/
structure ACachedResult where
  recommendations : List ARec
  confidence_score : ℚ

/-- Api `checkCache`: newest unexpired entry for the key; its serialized
recommendations are re-joined with the movie table and entries whose movie
no longer resolves are dropped. -/
def checkCache (db : ADb) (cacheKey : String) (now : Nat) : Option ACachedResult :=
  let valid := db.cache.filter fun e => e.context == cacheKey && decide (now < e.expires_at)
  match (valid.mergeSort fun a b => decide (b.created_at ≤ a.created_at)).head? with
  | none => none
  | some entry =>
    let movieIds := (entry.recs.map fun r => r.imdb_id).filter fun i => i != ""
    if movieIds.isEmpty then some ⟨[], entry.confidence_score⟩
    else
      let movies := db.movies.filter fun m => movieIds.contains m.imdb_id
      some
        ⟨entry.recs.filterMap fun rec =>
            (movies.find? fun m => m.imdb_id == rec.imdb_id).map fun m =>
              ⟨m, rec.match_score, rec.reasoning⟩,
         entry.confidence_score⟩

/-- Api `saveToCache`: the inserted row. -/
def saveToCache (cacheKey : String) (recommendations : List ACacheRec)
    (confidenceScore : ℚ) (now : Nat) : ACacheEntry :=
  { context := cacheKey
    recs := recommendations
    confidence_score := confidenceScore
    created_at := now
    expires_at := now + CACHE_DURATION_HOURS * 60 * 60 }

/-- Api `calculateFallbackScore`: average of the positive profile scores of
the movie genres and the normalized TMDB rating, over however many of the
two factors are available; 0.5 when neither is. -/
def calculateFallbackScore (movie : AMovie) (profile : AProfile) : ℚ :=
  let genreFactor : Option ℚ :=
    match movie.genres with
    | some gs =>
      if gs != "" && profile.genres.length > 0 then
        let movieGenres := splitTrim gs
        let genreScores := (movieGenres.map fun g => Worker.lookupD profile.genres g).filter
          fun s => decide (s > 0)
        if genreScores.length > 0 then
          some (genreScores.sum / (genreScores.length : ℚ))
        else none
      else none
    | none => none
  let ratingFactor : Option ℚ :=
    match movie.tmdb_rating with
    | some r => if r = 0 then none else some (r / 10)
    | none => none
  let factors := [genreFactor, ratingFactor].filterMap id
  if factors.length > 0 then factors.sum / (factors.length : ℚ) else 1/2

/-- One entry of the JSON array parsed from the api ranking oracle.  The
fields are optional because the JS validates their presence and type. -/
structure OracleRec where
  imdb_id : Option String := none
  match_score : Option ℚ := none
  reasoning : Option String := none

/-- Api `generateWithAI`.  The oracle argument is `none` for a thrown AI
call, an empty response text, or unparseable JSON; a parsed array is
validated (non-empty, entries with truthy `imdb_id`, numeric `match_score`
and truthy `reasoning`).  Note: the validated list is returned as is — it
is neither truncated to `count` nor checked against the candidate set. -/
def generateWithAI (candidates : List AMovie) (oracle : Option (List OracleRec))
    (count : Nat) : Except String (List ACacheRec) :=
  match candidates, count, oracle with
  | _, _, none => .error "AI generation failed"
  | _, _, some recs =>
    if recs.isEmpty then .error "Invalid AI response structure"
    else
      let validated := recs.filterMap fun r =>
        match r.imdb_id, r.match_score, r.reasoning with
        | some i, some s, some re =>
          if i != "" && re != "" then some (ACacheRec.mk i s re) else none
        | _, _, _ => none
      if validated.isEmpty then .error "No valid recommendations in AI response"
      else .ok validated

/-- Api `generateFallback`: score every candidate, sort descending, take the
first `count`. -/
def generateFallback (candidates : List AMovie) (profile : AProfile) (count : Nat) :
    List ACacheRec :=
  let scored := candidates.map fun movie =>
    ACacheRec.mk movie.imdb_id (calculateFallbackScore movie profile)
      "Recommended based on genre preferences and ratings"
  (scored.mergeSort fun a b => decide (b.match_score ≤ a.match_score)).take count

/-- Outcome of an api `generateRecommendations` call.  Unlike the worker
variant, the whole body sits in a `try` whose `catch` rethrows, so an
exception (for example a failing cache INSERT) escapes as `thrown`. -/
inductive AOutcome where
  | thrown (msg : String)
  | errorResult (msg : String) (profile_confidence : ℚ)
  | result (recommendations : List ARec) (profile_confidence : ℚ) (cached : Bool)

/-- Api `generateRecommendations`.  Note two deliberate fidelity points:
the cached result is truncated to `count` but the freshly computed AI-path
result is not, and the fresh-path movie join selects from the whole movie
table (not just the unrated candidates). -/
def generateRecommendations (db : ADb) (oracle : Option (List OracleRec))
    (options : Worker.RecOptions) (now : Nat) (cacheWriteFails : Bool) :
    AOutcome × List ACacheEntry :=
  let count := Worker.effectiveCount options.count
  match db.profile with
  | none => (.errorResult "No taste profile found. Calculate one first." 0, db.cache)
  | some profile =>
    let cacheKey := buildCacheKey options
    match checkCache db cacheKey now with
    | some cached =>
      (.result (cached.recommendations.take count) profile.confidence true, db.cache)
    | none =>
      let unratedMovies := db.movies.filter fun m => !(Worker.truthyNum m.user_rating)
      let candidatesAfterGenre :=
        match options.genre_filter with
        | some gf => filterByGenre unratedMovies gf
        | none => unratedMovies
      let candidates :=
        match options.era_filter with
        | some e => if e != "" then filterByEra candidatesAfterGenre e else candidatesAfterGenre
        | none => candidatesAfterGenre
      if candidates.isEmpty then
        (.errorResult "No movies match the specified filters" profile.confidence, db.cache)
      else
        let aiRecommendations :=
          match generateWithAI candidates oracle count with
          | .ok recs => recs
          | .error _ => generateFallback candidates profile count
        let movieIds := (aiRecommendations.map fun r => r.imdb_id).filter fun i => i != ""
        if movieIds.isEmpty then
          (.result [] profile.confidence false, db.cache)
        else
          let movies := db.movies.filter fun m => movieIds.contains m.imdb_id
          let recommendations := aiRecommendations.filterMap fun rec =>
            (movies.find? fun m => m.imdb_id == rec.imdb_id).map fun m =>
              ARec.mk m rec.match_score rec.reasoning
          if cacheWriteFails then
            (.thrown "Failed to save recommendations to cache", db.cache)
          else
            (.result recommendations profile.confidence false,
             db.cache ++ [saveToCache cacheKey aiRecommendations profile.confidence now])

/-! ### Api discovered-variant profile builder (api/src/tasteProfile.js) -/

/-- Minimum sample size (api variant). -/
def MIN_SAMPLE_SIZE : Nat := 20

/-- Movies grouped by rating tier (api `groupByRating`): loved 9+, liked
7-8, neutral 5-6, disliked below 5. -/
structure ARatingGroups where
  loved : List AMovie
  liked : List AMovie
  neutral : List AMovie
  disliked : List AMovie

/-- Api `groupByRating`. -/
def groupByRating (movies : List AMovie) : ARatingGroups :=
  { loved := movies.filter fun m => decide (9 ≤ aRatingOf m)
    liked := movies.filter fun m => decide (7 ≤ aRatingOf m) && decide (aRatingOf m < 9)
    neutral := movies.filter fun m => decide (5 ≤ aRatingOf m) && decide (aRatingOf m < 7)
    disliked := movies.filter fun m => decide (aRatingOf m < 5) }

/-- Api `calculateGenrePreferences`: tier-weighted genre accumulation
(loved 1.0, liked 0.6, neutral 0.3, disliked -0.5) followed by min-max
normalization (0.5 for every genre when the range is 0). -/
def calculateGenrePreferences (grouped : ARatingGroups) : List (String × ℚ) :=
  let process := fun (acc : List (String × ℚ)) (movies : List AMovie) (weight : ℚ) =>
    movies.foldl
      (fun acc movie =>
        match movie.genres with
        | none => acc
        | some gs =>
          if gs == "" then acc
          else
            (splitTrim gs).foldl
              (fun acc2 genre =>
                if genre == "" then acc2 else Worker.bumpBy acc2 genre weight)
              acc)
      acc
  let genreWeights :=
    process (process (process (process [] grouped.loved 1) grouped.liked (6/10))
      grouped.neutral (3/10)) grouped.disliked (-(5/10))
  match genreWeights with
  | [] => []
  | w :: ws =>
    let vals := (w :: ws).map Prod.snd
    let maxWeight := vals.foldl max w.2
    let minWeight := vals.foldl min w.2
    let range := maxWeight - minWeight
    (w :: ws).map fun p => (p.1, if range > 0 then (p.2 - minWeight) / range else 1/2)

/-- Association-list accumulator keyed by era label: occurrence count and
accumulated weight. -/
def bumpCountWeight (l : List (String × Nat × ℚ)) (k : String) (w : ℚ) :
    List (String × Nat × ℚ) :=
  match l.find? (fun p => p.1 == k) with
  | some _ => l.map fun p => if p.1 == k then (p.1, p.2.1 + 1, p.2.2 + w) else p
  | none => l ++ [(k, 1, w)]

/-- Api `calculateEraPreferences`: per decade, the average of the
normalized ratings (weight rating/10 divided by the occurrence count). -/
def calculateEraPreferences (movies : List AMovie) : List (String × ℚ) :=
  let acc := movies.foldl
    (fun acc movie =>
      match movie.year with
      | none => acc
      | some y =>
        if y == 0 then acc
        else bumpCountWeight acc (Worker.decadeLabel y) ((aRatingOf movie : ℚ) / 10))
    []
  acc.map fun p => (p.1, p.2.2 / (p.2.1 : ℚ))

/-- Api `calculateRuntimePreference`: bucket counts over loved and liked
movies; ties resolve medium, then long, then short. -/
def calculateRuntimePreference (grouped : ARatingGroups) : String :=
  let counts := (grouped.loved ++ grouped.liked).foldl
    (fun (c : Nat × Nat × Nat) movie =>
      match movie.runtime_minutes with
      | none => c
      | some r =>
        if r == 0 then c
        else if r < 90 then (c.1 + 1, c.2.1, c.2.2)
        else if r ≤ 150 then (c.1, c.2.1 + 1, c.2.2)
        else (c.1, c.2.1, c.2.2 + 1))
    (0, 0, 0)
  let mx := max counts.1 (max counts.2.1 counts.2.2)
  if counts.2.1 == mx then "medium"
  else if counts.2.2 == mx then "long"
  else "short"

/-- Api `extractTopDirectors`: count split-and-trimmed director names over
the loved movies (skipping falsy and `Unknown` columns), top 5 by count. -/
def extractTopDirectors (lovedMovies : List AMovie) : List String :=
  let counts := lovedMovies.foldl
    (fun (acc : List (String × Nat)) movie =>
      match movie.director with
      | none => acc
      | some d =>
        if d == "" || d == "Unknown" then acc
        else (splitTrim d).foldl (fun acc2 dir => Worker.bumpCount acc2 dir 1) acc)
    []
  ((counts.mergeSort fun a b => decide (b.2 ≤ a.2)).take 5).map Prod.fst

/-- Outcome of the api theme-analysis oracle call: thrown, or a raw
response text (parsed as a comma-separated theme list). -/
inductive AThemesOutcome where
  | threw
  | responded (text : String)

/-- Api `analyzeThemes`. -/
def analyzeThemes (lovedMovies : List AMovie) (oracle : AThemesOutcome) : List String :=
  let allKeywords := (lovedMovies.filterMap fun m => m.plot_keywords).flatten
  if allKeywords.isEmpty then []
  else
    match oracle with
    | .threw =>
      let counts := allKeywords.foldl (fun acc k => Worker.bumpCount acc k 1) []
      ((counts.mergeSort fun a b => decide (b.2 ≤ a.2)).take 5).map Prod.fst
    | .responded text =>
      let counts := allKeywords.foldl (fun acc k => Worker.bumpCount acc k 1) []
      let topKeywords := ((counts.mergeSort fun a b => decide (b.2 ≤ a.2)).take 30).map Prod.fst
      let themes :=
        (((text.splitOn ",").map fun t => t.trim.toLower).filter fun t => t.length > 0).take 5
      if themes.length > 0 then themes else topKeywords.take 5

/-- Api `calculateConfidence`: sample-size base `min(n/100, 1)`, damped by
0.7 when the genre score variance is below 0.05, rounded via
`Math.round(x * 100) / 100` (numerically the same rounding as
`toFixed2`). -/
def calculateConfidence (sampleSize : Nat) (genrePreferences : List (String × ℚ)) : ℚ :=
  let base := min ((sampleSize : ℚ) / 100) 1
  let values := genrePreferences.map Prod.snd
  let confidence :=
    if values.length > 0 then
      let mean := values.sum / (values.length : ℚ)
      let variance := (values.map fun v => (v - mean) ^ 2).sum / (values.length : ℚ)
      if variance < 5/100 then base * (7/10) else base
    else base
  Worker.toFixed2 confidence

/-- Outcome of the api discovered-variant profile computation. -/
inductive ATasteOutcome where
  | insufficient (msg : String) (sample_size : Nat) (required : Nat)
  | computed (profile : AProfile)

/-- Api `calculateTasteProfile(db, ai)`: rated movies sorted by rating
descending; the explicit insufficient-data object below `MIN_SAMPLE_SIZE`;
otherwise the computed profile (whose storage via `storeTasteProfile` is
not needed by any claim and is not modelled). -/
def calculateTasteProfile (db : ADb) (themesOracle : AThemesOutcome) : ATasteOutcome :=
  let movies := (db.movies.filter fun m => m.user_rating.isSome).mergeSort
    fun a b => decide (aRatingOf b ≤ aRatingOf a)
  if movies.length < MIN_SAMPLE_SIZE then
    .insufficient "Insufficient data for taste profile calculation" movies.length MIN_SAMPLE_SIZE
  else
    let grouped := groupByRating movies
    let genres := calculateGenrePreferences grouped
    let eras := calculateEraPreferences movies
    let runtimePreference := calculateRuntimePreference grouped
    let directors := extractTopDirectors grouped.loved
    let themes := analyzeThemes grouped.loved themesOracle
    let confidence := calculateConfidence movies.length genres
    .computed
      { genres := genres
        eras := eras
        themes := themes
        directors := directors
        runtime_preference := some runtimePreference
        sample_size := movies.length
        confidence := confidence }

end Api

/-! ## Accessors and example inputs used by the claim statements -/

namespace Worker

/-- Recommendation list of a successful outcome, empty otherwise. -/
def WOutcome.recs : WOutcome → List WRec
  | .result recs _ _ _ => recs
  | _ => []

/-- Cached flag of a successful outcome, false otherwise. -/
def WOutcome.cachedFlag : WOutcome → Bool
  | .result _ _ c _ => c
  | _ => false

/-- Whether the outcome is an escaped JS exception. -/
def WOutcome.isThrownOutcome : WOutcome → Bool
  | .thrown _ => true
  | _ => false

/-- Primary-genre key of a recommendation: `none` when the movie has no
genres column, `some (primaryGenre gs)` otherwise. -/
def recPrimaryKey (r : WRec) : Option (Option String) :=
  r.movie.genres.map primaryGenre

/-- Number of recommendations whose primary-genre key equals `key`. -/
def keyCount (recs : List WRec) (key : Option String) : Nat :=
  (recs.filter fun r => recPrimaryKey r == some key).length

/-- Number of recommendations whose primary category is the genre `g`. -/
def primaryCount (recs : List WRec) (g : String) : Nat :=
  keyCount recs (some g)

/-- The distinct primary genres available among a candidate list. -/
def candidatePrimaryGenres (movies : List WMovie) : List String :=
  dedupFirst (movies.filterMap fun m => m.genres.bind primaryGenre)

/-- An already-rated movie row (rating 8) used by the C3 cache scenario. -/
def c3RatedMovie : WMovie :=
  { id := 1, title := "Rated Movie", year := some 2015, genres := some ["Action"]
    runtime_minutes := none, director := none, user_rating := some 8
    plot_keywords := none, overview := none }

/-- A profile whose informative dimensions are all empty, so every local
match score falls through to the neutral 0.5 without any rational-number
branching. -/
def plainProfile : WProfile :=
  { genres := [], eras := [], themes := [], runtime_preference := ""
    directors := [], sample_size := 25, confidence := 6/100 }

/-- An unexpired cache row recommending the already-rated movie 1 under the
default-option context. -/
def c3CacheEntry : CacheEntry :=
  { context := "any|all|all|10", movie_ids := [1], reasoning := "cached reasoning"
    confidence := 1/2, created_at := 0, expires_at := 100 }

/-- Database for the C3 cache-hit counterexample. -/
def c3Db : WDb :=
  { movies := [c3RatedMovie], profile := some plainProfile, cache := [c3CacheEntry] }

/-- An unrated movie without metadata columns. -/
def freshMovie : WMovie :=
  { id := 2, title := "Fresh Movie", year := none, genres := none
    runtime_minutes := none, director := none, user_rating := none
    plot_keywords := none, overview := none }

/-- Database with a single unrated movie and an empty cache (fresh path). -/
def freshDb : WDb :=
  { movies := [freshMovie], profile := some plainProfile, cache := [] }

/-- Worker movie for the C7 scenario: primary genre `g`, no other
metadata, unrated. -/
def c7Movie (i : Nat) (g : String) : WMovie :=
  { id := i, title := "c7-" ++ g ++ toString i, year := none, genres := some [g]
    runtime_minutes := none, director := none, user_rating := none
    plot_keywords := none, overview := none }

/-- Profile giving every genre of the C7 scenario the same score 1, so all
candidates tie and the stable sort keeps input order. -/
def c7Profile : WProfile :=
  { genres := [("A", 1), ("B", 1), ("C", 1)], eras := [], themes := []
    runtime_preference := "", directors := [], sample_size := 25, confidence := 1/2 }

/-- Candidate list of the C7 scenario: three movies of primary genre A
ranked ahead of one B and one C. -/
def c7Movies : List WMovie :=
  [c7Movie 11 "A", c7Movie 12 "A", c7Movie 13 "A", c7Movie 14 "B", c7Movie 15 "C"]

/-- Database for the C7 diversity counterexample. -/
def c7Db : WDb := { movies := c7Movies, profile := some c7Profile, cache := [] }

/-- Recommendation list used to instantiate the amended C7 theorem. -/
def c7WitnessRecs : List WRec :=
  [{ movie := c7Movie 21 "A", match_score := 1, reasoning := "r" },
   { movie := c7Movie 22 "B", match_score := 1, reasoning := "r" },
   { movie := c7Movie 23 "C", match_score := 1, reasoning := "r" }]

/-- Database with 10 rated movies (below the minimum sample size 20). -/
def tenRatedDb : WDb :=
  { movies := (List.range 10).map fun i =>
      { id := i, title := "rated", year := some 2000, genres := some ["Drama"]
        runtime_minutes := some 100, director := none, user_rating := some 7
        plot_keywords := none, overview := none }
    profile := none, cache := [] }

end Worker

namespace Api

/-- Recommendation list of a successful api outcome, empty otherwise. -/
def AOutcome.recs : AOutcome → List ARec
  | .result recs _ _ => recs
  | _ => []

/-- Whether the api outcome is an escaped JS exception. -/
def AOutcome.isThrownOutcome : AOutcome → Bool
  | .thrown _ => true
  | _ => false

/-- An unrated api movie row with the given id. -/
def aMovie (i : String) : AMovie :=
  { imdb_id := i, title := "t" ++ i, year := some 2020, genres := some "Drama"
    director := none, overview := none, tmdb_rating := none
    runtime_minutes := none, user_rating := none, plot_keywords := none }

/-- An api profile with genre scores present. -/
def aProfile : AProfile :=
  { genres := [("Drama", 9/10)], eras := [], themes := [], directors := []
    runtime_preference := some "medium", sample_size := 25, confidence := 8/10 }

/-- Api database with two unrated movies and an empty cache. -/
def twoMovieDb : ADb :=
  { movies := [aMovie "tt1", aMovie "tt2"], profile := some aProfile, cache := [] }

/-- A well-formed oracle entry recommending the given id. -/
def okOracleRec (i : String) : OracleRec :=
  { imdb_id := some i, match_score := some (9/10), reasoning := some "fits" }

/-- Api database with 10 rated movies (below the minimum sample size 20). -/
def tenRatedADb : ADb :=
  { movies := (List.range 10).map fun i =>
      { imdb_id := "tt" ++ toString i, title := "rated", year := some 2000
        genres := some "Drama", director := none, overview := none
        tmdb_rating := none, runtime_minutes := some 100, user_rating := some 7
        plot_keywords := none }
    profile := none, cache := [] }

end Api

/-- Unit action vector (test vector B of the engine examples). -/
def vectorB : AttrMap := fun a => match a with | .action => 1 | _ => 0

/-- Unit drama vector (test vector C of the engine examples). -/
def vectorC : AttrMap := fun a => match a with | .drama => 1 | _ => 0

/-- The all-zero attribute vector. -/
def zeroVector : AttrMap := fun _ => 0

/-- The rating history of the concrete spec scenario: Mad Max rated 5,
Superbad rated 1. -/
def madMaxSuperbadRatings : List Rating :=
  [⟨"movie-1", "demo-user", 5, 0⟩, ⟨"movie-3", "demo-user", 1, 0⟩]

/-! ## Helper lemmas -/

theorem magnitudeSq_nonneg (p : AttrMap) : 0 ≤ magnitudeSq p := by
  apply List.sum_nonneg
  intro x hx
  obtain ⟨a, _, rfl⟩ := List.mem_map.mp hx
  exact mul_self_nonneg _

theorem contribution_sums (movieMap : String → Option Movie) (attr : Attr) :
    ∀ ratings : List Rating, (∀ r ∈ ratings, (movieMap r.movieId).isSome = true) →
      ((((ratings.filterMap fun r => (movieMap r.movieId).map fun movie =>
          (movie.attributes attr * r.score, r.score)).map Prod.fst).sum =
        (ratings.map fun r => itemScore movieMap r attr * r.score).sum)
      ∧ (((ratings.filterMap fun r => (movieMap r.movieId).map fun movie =>
          (movie.attributes attr * r.score, r.score)).map Prod.snd).sum =
        (ratings.map fun r => r.score).sum)) := by
  intro ratings
  induction ratings with
  | nil => intro _; exact ⟨rfl, rfl⟩
  | cons r rs ih =>
    intro h
    have hr := h r (List.mem_cons_self r rs)
    obtain ⟨m, hm⟩ := Option.isSome_iff_exists.mp hr
    have hrest := ih fun x hx => h x (List.mem_cons_of_mem _ hx)
    simp [List.filterMap_cons, hm, itemScore, hrest.1, hrest.2]

theorem mem_of_mem_filter_stage {α : Type} {x : α} {p : α → Bool} {l : List α}
    {c : Prop} [Decidable c] (h : x ∈ if c then l.filter p else l) : x ∈ l := by
  split at h
  · exact (List.mem_filter.mp h).1
  · exact h

theorem mem_of_mem_applyFilters {m : Worker.WMovie} {movies : List Worker.WMovie}
    {options : Worker.RecOptions} (h : m ∈ Worker.applyFilters movies options) :
    m ∈ movies := by
  obtain ⟨mood, gfo, efo, cnt⟩ := options
  unfold Worker.applyFilters at h
  rcases efo with _ | era <;> rcases gfo with _ | gf <;> dsimp only at h
  · exact h
  · exact mem_of_mem_filter_stage h
  · exact mem_of_mem_filter_stage h
  · exact mem_of_mem_filter_stage (mem_of_mem_filter_stage h)

theorem mem_diversityFold {x : Worker.WRec} (cap : Nat) :
    ∀ (recs : List Worker.WRec) (d b : List Worker.WRec)
      (counts : Option String → Nat),
      (x ∈ (recs.foldl (Worker.diversityStep cap) (d, b, counts)).1
        ∨ x ∈ (recs.foldl (Worker.diversityStep cap) (d, b, counts)).2.1) →
      x ∈ d ∨ x ∈ b ∨ x ∈ recs := by
  intro recs
  induction recs with
  | nil =>
    intro d b counts h
    rcases h with h | h
    · exact Or.inl h
    · exact Or.inr (Or.inl h)
  | cons rec rest ih =>
    intro d b counts h
    rw [List.foldl_cons] at h
    have hstep := ih (Worker.diversityStep cap (d, b, counts) rec).1
      (Worker.diversityStep cap (d, b, counts) rec).2.1
      (Worker.diversityStep cap (d, b, counts) rec).2.2 (by simpa using h)
    have hsub : (x ∈ (Worker.diversityStep cap (d, b, counts) rec).1 ∨
        x ∈ (Worker.diversityStep cap (d, b, counts) rec).2.1) →
        x ∈ d ∨ x ∈ b ∨ x = rec := by
      intro hx
      unfold Worker.diversityStep at hx
      rcases hg : rec.movie.genres with _ | genres
      · rw [hg] at hx
        rcases hx with hx | hx
        · rcases List.mem_append.mp hx with hx | hx
          · exact Or.inl hx
          · exact Or.inr (Or.inr (List.mem_singleton.mp hx))
        · exact Or.inr (Or.inl hx)
      · rw [hg] at hx
        simp only at hx
        split at hx
        · rcases hx with hx | hx
          · rcases List.mem_append.mp hx with hx | hx
            · exact Or.inl hx
            · exact Or.inr (Or.inr (List.mem_singleton.mp hx))
          · exact Or.inr (Or.inl hx)
        · rcases hx with hx | hx
          · exact Or.inl hx
          · rcases List.mem_append.mp hx with hx | hx
            · exact Or.inr (Or.inl hx)
            · exact Or.inr (Or.inr (List.mem_singleton.mp hx))
    rcases hstep with hx | hx | hx
    · rcases hsub (Or.inl hx) with h | h | h
      · exact Or.inl h
      · exact Or.inr (Or.inl h)
      · exact Or.inr (Or.inr (h ▸ List.mem_cons_self rec rest))
    · rcases hsub (Or.inr hx) with h | h | h
      · exact Or.inl h
      · exact Or.inr (Or.inl h)
      · exact Or.inr (Or.inr (h ▸ List.mem_cons_self rec rest))
    · exact Or.inr (Or.inr (List.mem_cons_of_mem _ hx))

theorem mem_of_mem_diversityPass {x : Worker.WRec} {recs : List Worker.WRec}
    {count : Nat} (h : x ∈ Worker.diversityPass recs count) : x ∈ recs := by
  unfold Worker.diversityPass Worker.diversityFold at h
  rcases List.mem_append.mp h with hx | hx
  · rcases mem_diversityFold _ recs [] [] (fun _ => 0) (Or.inl hx) with h | h | h
    · exact absurd h (List.not_mem_nil x)
    · exact absurd h (List.not_mem_nil x)
    · exact h
  · have hx2 := List.mem_of_mem_take hx
    rcases mem_diversityFold _ recs [] [] (fun _ => 0) (Or.inr hx2) with h | h | h
    · exact absurd h (List.not_mem_nil x)
    · exact absurd h (List.not_mem_nil x)
    · exact h

theorem movie_of_mem_fallbackRecommendations {r : Worker.WRec}
    {sorted : List (Worker.WMovie × ℚ)} {profile : Worker.WProfile} {count : Nat}
    (h : r ∈ Worker.fallbackRecommendations sorted profile count) :
    ∃ s ∈ sorted, r.movie = s.1 := by
  unfold Worker.fallbackRecommendations at h
  obtain ⟨s, hs, rfl⟩ := List.mem_map.mp h
  exact ⟨s, List.mem_of_mem_take hs, rfl⟩

theorem movie_of_mem_aiRecommendations {r : Worker.WRec}
    {ranked : List (Option Worker.AIRanked)} {count : Nat} {recs : List Worker.WRec}
    (hok : Worker.aiRecommendations ranked count = .ok recs) (h : r ∈ recs) :
    ∃ a : Worker.AIRanked, some a ∈ ranked ∧ r.movie = a.movie := by
  unfold Worker.aiRecommendations at hok
  split at hok
  · cases hok
    obtain ⟨p, hp, rfl⟩ := List.mem_map.mp h
    have hp2 : p.2 ∈ ((ranked.take count).filterMap id) := by
      have := List.mem_map_of_mem Prod.snd hp
      rwa [List.enum_map_snd] at this
    obtain ⟨o, ho, hid⟩ := List.mem_filterMap.mp hp2
    have hsome : o = some p.2 := hid
    refine ⟨p.2, ?_, rfl⟩
    rw [← hsome]
    exact List.mem_of_mem_take ho
  · exact absurd hok (by simp)

theorem movie_of_rankWithAI {candidates : List Worker.WMovie}
    {oracle : Option (List Worker.OracleRanking)} {ranked : List (Option Worker.AIRanked)}
    {a : Worker.AIRanked} (hr : Worker.rankWithAI candidates oracle = some ranked)
    (ha : some a ∈ ranked) : a.movie ∈ candidates := by
  rcases oracle with _ | rankings
  · exact absurd hr (by simp [Worker.rankWithAI])
  · dsimp only [Worker.rankWithAI, Option.map] at hr
    injection hr with hmap
    rw [← hmap] at ha
    obtain ⟨rk, _, hrk⟩ := List.mem_map.mp ha
    rcases hfind : candidates.find? fun c => c.title == rk.title with _ | movie
    · rw [hfind] at hrk
      exact absurd hrk (by simp)
    · rw [hfind] at hrk
      have hav : a = { movie := movie, reasoning := rk.reasoning } := by
        have := Option.some.inj hrk
        exact this.symm
      rw [hav]
      exact List.mem_of_find?_eq_some hfind

/-! ## Claim theorems -/

/-- C1: on a non-empty rating history whose items all resolve in the movie
map and whose total weight is positive, every dimension of the engine
profile is the rating-weighted average with the raw rating score as
weight; the concrete Mad Max 5 / Superbad 1 history yields an action score
within 0.001 of 0.842 and a drama score of exactly 0.4. -/
theorem c1_weighted_average
    (ratings : List Rating) (movieMap : String → Option Movie)
    (hne : ratings ≠ [])
    (hfound : ∀ r ∈ ratings, (movieMap r.movieId).isSome = true)
    (hw : 0 < (ratings.map fun r => r.score).sum) :
    (∀ attr, calculateTasteProfile ratings movieMap attr =
        (ratings.map fun r => itemScore movieMap r attr * r.score).sum /
          (ratings.map fun r => r.score).sum)
    ∧ |calculateTasteProfile madMaxSuperbadRatings MOVIE_MAP .action - 842/1000| < 1/1000
    ∧ calculateTasteProfile madMaxSuperbadRatings MOVIE_MAP .drama = 4/10 := by
  have hmain : ∀ attr, calculateTasteProfile ratings movieMap attr =
      (ratings.map fun r => itemScore movieMap r attr * r.score).sum /
        (ratings.map fun r => r.score).sum := by
    intro attr
    have hsum := contribution_sums movieMap attr ratings hfound
    have hempty : ratings.isEmpty = false := by
      cases ratings
      · exact absurd rfl hne
      · rfl
    simp only [calculateTasteProfile, hempty, Bool.false_eq_true, if_false]
    rw [hsum.1, hsum.2, if_pos hw]
  have hm1 : MOVIE_MAP "movie-1" =
      some ⟨"movie-1", "Mad Max: Fury Road", 2015, madMaxAttrs⟩ := rfl
  have hm3 : MOVIE_MAP "movie-3" =
      some ⟨"movie-3", "Superbad", 2007, superbadAttrs⟩ := rfl
  have haction : calculateTasteProfile madMaxSuperbadRatings MOVIE_MAP .action = 101/120 := by
    norm_num [calculateTasteProfile, madMaxSuperbadRatings, List.filterMap_cons, hm1, hm3,
      madMaxAttrs, superbadAttrs]
  have hdrama : calculateTasteProfile madMaxSuperbadRatings MOVIE_MAP .drama = 4/10 := by
    norm_num [calculateTasteProfile, madMaxSuperbadRatings, List.filterMap_cons, hm1, hm3,
      madMaxAttrs, superbadAttrs]
  refine ⟨hmain, ?_, hdrama⟩
  rw [haction, abs_lt]
  constructor <;> norm_num

/-- Witness for C1 at the Mad Max 5 / Superbad 1 history over the sample
movie map. -/
theorem c1_weighted_average_witness :
    madMaxSuperbadRatings ≠ []
    ∧ (∀ r ∈ madMaxSuperbadRatings, (MOVIE_MAP r.movieId).isSome = true)
    ∧ 0 < (madMaxSuperbadRatings.map fun r => r.score).sum
    ∧ (∀ attr, calculateTasteProfile madMaxSuperbadRatings MOVIE_MAP attr =
        (madMaxSuperbadRatings.map fun r => itemScore MOVIE_MAP r attr * r.score).sum /
          (madMaxSuperbadRatings.map fun r => r.score).sum) := by
  have h1 : madMaxSuperbadRatings ≠ [] := by simp [madMaxSuperbadRatings]
  have h2 : ∀ r ∈ madMaxSuperbadRatings, (MOVIE_MAP r.movieId).isSome = true := by
    simp [madMaxSuperbadRatings, MOVIE_MAP, SAMPLE_MOVIES, List.find?]
  have h3 : 0 < (madMaxSuperbadRatings.map fun r => r.score).sum := by
    norm_num [madMaxSuperbadRatings]
  exact ⟨h1, h2, h3, (c1_weighted_average madMaxSuperbadRatings MOVIE_MAP h1 h2 h3).1⟩

/-- C3 (amended): whenever a worker `generateRecommendations` call returns
a freshly computed (non-cached) result — on the locally scored path and on
the oracle-reranked path alike — no returned recommendation is an
already-rated movie; the cache-hit path, by contrast, returns the stored
ids without re-checking the rated set, so an item rated after the cache
write can be returned (see the counterexample). -/
theorem c3_fresh_results_unrated (db : Worker.WDb)
    (oracle : Option (List Worker.OracleRanking)) (options : Worker.RecOptions)
    (now : Nat) (wf : Bool)
    (hfresh : ((Worker.generateRecommendations db oracle options now wf).1).cachedFlag
      = false) :
    ∀ r ∈ ((Worker.generateRecommendations db oracle options now wf).1).recs,
      Worker.truthyNum r.movie.user_rating = false := by
  intro r hr
  rcases hdbp : db.profile with _ | profile
  · simp only [Worker.generateRecommendations, hdbp, Worker.WOutcome.recs] at hr
    exact absurd hr (List.not_mem_nil r)
  rcases hc : Worker.getCachedRecommendations db.cache
      (Worker.buildContext options (Worker.effectiveCount options.count)) now with _ | cached
  case some =>
    simp [Worker.generateRecommendations, hdbp, hc, Worker.WOutcome.cachedFlag] at hfresh
  case none =>
  simp only [Worker.generateRecommendations, hdbp, hc] at hr
  set filtered := Worker.applyFilters
    (db.movies.filter fun m => !(Worker.truthyNum m.user_rating)) options with hfil
  set scored := filtered.map
    (fun movie => (movie, Worker.calculateBasicMatchScore movie profile)) with hsc
  set sorted := scored.mergeSort (fun a b => decide (b.2 ≤ a.2)) with hsor
  have hmv_filtered : ∀ {mv : Worker.WMovie}, mv ∈ filtered →
      Worker.truthyNum mv.user_rating = false := by
    intro mv hmv
    rw [hfil] at hmv
    have h2 := (List.mem_filter.mp (mem_of_mem_applyFilters hmv)).2
    simpa using h2
  have hs_filtered : ∀ {s : Worker.WMovie × ℚ}, s ∈ sorted → s.1 ∈ filtered := by
    intro s hs
    rw [hsor] at hs
    have h2 := (List.mergeSort_perm scored fun a b => decide (b.2 ≤ a.2)).mem_iff.mp hs
    rw [hsc] at h2
    obtain ⟨mv, hmv, rfl⟩ := List.mem_map.mp h2
    exact hmv
  split at hr
  · simp only [Worker.WOutcome.recs] at hr
    exact absurd hr (List.not_mem_nil r)
  · split at hr
    · simp only [Worker.WOutcome.recs] at hr
      exact absurd hr (List.not_mem_nil r)
    · rename_i recommendations heq
      simp only [Worker.WOutcome.recs] at hr
      have hrecmem := mem_of_mem_diversityPass hr
      split at heq
      · rename_i hcond
        rcases hai : Worker.rankWithAI (List.map Prod.fst (List.take 50 sorted)) oracle
          with _ | ranked
        · rw [hai] at hcond
          simp at hcond
        · rw [hai] at heq
          simp only [Option.getD] at heq
          obtain ⟨a, haranked, hmov⟩ := movie_of_mem_aiRecommendations heq hrecmem
          have hcand := movie_of_rankWithAI hai haranked
          obtain ⟨s, hs, hfst⟩ := List.mem_map.mp hcand
          rw [hmov, ← hfst]
          exact hmv_filtered (hs_filtered (List.mem_of_mem_take hs))
      · injection heq with h2
        rw [← h2] at hrecmem
        obtain ⟨s, hs, hmov⟩ := movie_of_mem_fallbackRecommendations hrecmem
        rw [hmov]
        exact hmv_filtered (hs_filtered hs)

/-- Witness for C3 at a one-movie fresh run with no oracle. -/
theorem c3_fresh_results_unrated_witness :
    ((Worker.generateRecommendations Worker.freshDb none {} 0 false).1).cachedFlag = false
    ∧ (∀ r ∈ ((Worker.generateRecommendations Worker.freshDb none {} 0 false).1).recs,
        Worker.truthyNum r.movie.user_rating = false) := by
  have heff : Worker.effectiveCount none = 10 := rfl
  have hflag : ((Worker.generateRecommendations Worker.freshDb none {} 0 false).1).cachedFlag
      = false := by
    simp [Worker.generateRecommendations, Worker.freshDb, Worker.freshMovie,
      Worker.plainProfile, Worker.getCachedRecommendations, heff,
      Worker.applyFilters, Worker.truthyNum, List.mergeSort,
      Worker.rankWithAI, Worker.WOutcome.cachedFlag]
  exact ⟨hflag, c3_fresh_results_unrated Worker.freshDb none {} 0 false hflag⟩

/-- C3 counterexample: on a cache hit the worker engine returns the cached
ids without filtering out movies rated in the meantime — here the cached
movie 1 carries `user_rating = 8` and is returned with `cached = true`. -/
theorem c3_counterexample :
    Worker.truthyNum Worker.c3RatedMovie.user_rating = true
    ∧ ((Worker.generateRecommendations Worker.c3Db none {} 0 false).1).cachedFlag = true
    ∧ ((Worker.generateRecommendations Worker.c3Db none {} 0 false).1).recs.map
        (fun r => r.movie.id) = [1] := by
  have heff : Worker.effectiveCount none = 10 := rfl
  have hctx : Worker.buildContext {} 10 = "any|all|all|10" := rfl
  refine ⟨rfl, ?_, ?_⟩
  · simp [Worker.generateRecommendations, Worker.c3Db, Worker.c3CacheEntry,
      Worker.c3RatedMovie, Worker.plainProfile, Worker.getCachedRecommendations, hctx,
      heff, List.mergeSort, Worker.WOutcome.cachedFlag]
  · simp [Worker.generateRecommendations, Worker.c3Db, Worker.c3CacheEntry,
      Worker.c3RatedMovie, Worker.plainProfile, Worker.getCachedRecommendations, hctx,
      heff, List.mergeSort, Worker.cachedResponse, List.enum,
      List.enumFrom, Worker.WOutcome.recs]

/-- C6: evaluation at the failing input of the code bug — when the oracle
returns a parseable ranking naming a title that is not among the
candidates, the worker engine maps it to `null`, reads `.movie` on it and
throws, instead of falling back; the same call with a failed oracle does
fall back to a non-empty, non-thrown local result. -/
theorem c6_unknown_title_throws :
    ((Worker.generateRecommendations Worker.freshDb
        (some [⟨"Ghost Movie", "sounds exciting"⟩]) {} 0 false).1).isThrownOutcome = true
    ∧ ((Worker.generateRecommendations Worker.freshDb none {} 0 false).1).recs.length = 1
    ∧ ((Worker.generateRecommendations Worker.freshDb none {} 0 false).1).isThrownOutcome
      = false := by
  have heff : Worker.effectiveCount none = 10 := rfl
  refine ⟨?_, ?_, ?_⟩
  · simp [Worker.generateRecommendations, Worker.freshDb, Worker.freshMovie,
      Worker.plainProfile, Worker.getCachedRecommendations, heff, Worker.applyFilters,
      Worker.truthyNum, List.mergeSort, Worker.rankWithAI, Worker.aiRecommendations,
      Worker.WOutcome.isThrownOutcome]
  · simp [Worker.generateRecommendations, Worker.freshDb, Worker.freshMovie,
      Worker.plainProfile, Worker.getCachedRecommendations, heff, Worker.applyFilters,
      Worker.truthyNum, List.mergeSort, Worker.rankWithAI, Worker.fallbackRecommendations,
      Worker.diversityPass, Worker.diversityFold, Worker.diversityStep,
      Worker.WOutcome.recs]
  · simp [Worker.generateRecommendations, Worker.freshDb, Worker.freshMovie,
      Worker.plainProfile, Worker.getCachedRecommendations, heff, Worker.applyFilters,
      Worker.truthyNum, List.mergeSort, Worker.rankWithAI,
      Worker.WOutcome.isThrownOutcome]

theorem length_cachedResponse_le (db : Worker.WDb) (cached : Worker.CachedRecs)
    (count : Nat) : (Worker.cachedResponse db cached count).length ≤ count := by
  unfold Worker.cachedResponse
  rw [List.length_map, List.enum_length]
  exact le_trans (List.length_filterMap_le _ _) (List.length_take_le _ _)

theorem length_aiRecommendations_le {ranked : List (Option Worker.AIRanked)}
    {count : Nat} {recs : List Worker.WRec}
    (hok : Worker.aiRecommendations ranked count = .ok recs) : recs.length ≤ count := by
  unfold Worker.aiRecommendations at hok
  split at hok
  · cases hok
    rw [List.length_map, List.enum_length]
    exact le_trans (List.length_filterMap_le _ _) (List.length_take_le _ _)
  · exact absurd hok (by simp)

theorem diversityFold_lengths (cap : Nat) : ∀ (recs : List Worker.WRec)
    (d b : List Worker.WRec) (counts : Option String → Nat),
    (recs.foldl (Worker.diversityStep cap) (d, b, counts)).1.length +
      (recs.foldl (Worker.diversityStep cap) (d, b, counts)).2.1.length =
    d.length + b.length + recs.length := by
  intro recs
  induction recs with
  | nil => intro d b c; simp
  | cons rec rest ih =>
    intro d b c
    rw [List.foldl_cons]
    have heta : ((Worker.diversityStep cap (d, b, c) rec).1,
        (Worker.diversityStep cap (d, b, c) rec).2.1,
        (Worker.diversityStep cap (d, b, c) rec).2.2) =
        Worker.diversityStep cap (d, b, c) rec := rfl
    have hstep := ih (Worker.diversityStep cap (d, b, c) rec).1
      (Worker.diversityStep cap (d, b, c) rec).2.1
      (Worker.diversityStep cap (d, b, c) rec).2.2
    rw [heta] at hstep
    rw [hstep]
    have hX : (Worker.diversityStep cap (d, b, c) rec).1.length +
        (Worker.diversityStep cap (d, b, c) rec).2.1.length =
        d.length + b.length + 1 := by
      unfold Worker.diversityStep
      split
      · simp only [List.length_append, List.length_cons, List.length_nil]
        omega
      · dsimp only
        split
        · simp only [List.length_append, List.length_cons, List.length_nil]
          omega
        · simp only [List.length_append, List.length_cons, List.length_nil]
          omega
    simp only [List.length_cons]
    omega

theorem length_diversityPass_le {recs : List Worker.WRec} {count : Nat}
    (h : recs.length ≤ count) : (Worker.diversityPass recs count).length ≤ count := by
  unfold Worker.diversityPass Worker.diversityFold
  have hlen := diversityFold_lengths ((count + 2) / 3) recs [] [] (fun _ => 0)
  simp only [List.length_nil, Nat.zero_add] at hlen
  rw [List.length_append]
  have htake := List.length_take_le
    (count - (recs.foldl (Worker.diversityStep ((count + 2) / 3))
      ([], [], fun _ => 0)).1.length)
    (recs.foldl (Worker.diversityStep ((count + 2) / 3)) ([], [], fun _ => 0)).2.1
  omega

/-- C10 (amended): in the worker engine the cache write is best-effort —
the recommendation outcome of `generateRecommendations` is identical
whether or not the cache INSERT fails (only the stored cache table
differs); in the api engine, by contrast, a failing cache write escapes the
call (see the counterexample). -/
theorem c10_cache_write_best_effort (db : Worker.WDb)
    (oracle : Option (List Worker.OracleRanking)) (options : Worker.RecOptions)
    (now : Nat) :
    (Worker.generateRecommendations db oracle options now true).1 =
      (Worker.generateRecommendations db oracle options now false).1 := by
  simp only [Worker.generateRecommendations]
  split
  · rfl
  · split
    · rfl
    · split
      · rfl
      · split
        · rfl
        · rfl

theorem keyCount_append (d : List Worker.WRec) (rec : Worker.WRec)
    (key : Option String) :
    Worker.keyCount (d ++ [rec]) key =
      Worker.keyCount d key +
        (if (Worker.recPrimaryKey rec == some key) = true then 1 else 0) := by
  unfold Worker.keyCount
  rw [List.filter_append, List.length_append]
  by_cases hp : (Worker.recPrimaryKey rec == some key) = true <;>
    simp [List.filter_cons, hp]

theorem diversityFold_inv (cap : Nat) (hcap : 0 < cap) :
    ∀ (recs : List Worker.WRec) (d b : List Worker.WRec)
      (counts : Option String → Nat),
      (∀ key, counts key = Worker.keyCount d key ∧ counts key ≤ cap) →
      ∀ key, (recs.foldl (Worker.diversityStep cap) (d, b, counts)).2.2 key =
          Worker.keyCount (recs.foldl (Worker.diversityStep cap) (d, b, counts)).1 key
        ∧ (recs.foldl (Worker.diversityStep cap) (d, b, counts)).2.2 key ≤ cap := by
  intro recs
  induction recs with
  | nil => intro d b counts hinv key; exact hinv key
  | cons rec rest ih =>
    intro d b counts hinv key
    rw [List.foldl_cons]
    have heta : ((Worker.diversityStep cap (d, b, counts) rec).1,
        (Worker.diversityStep cap (d, b, counts) rec).2.1,
        (Worker.diversityStep cap (d, b, counts) rec).2.2) =
        Worker.diversityStep cap (d, b, counts) rec := rfl
    have hpres : ∀ key2, (Worker.diversityStep cap (d, b, counts) rec).2.2 key2 =
        Worker.keyCount (Worker.diversityStep cap (d, b, counts) rec).1 key2
        ∧ (Worker.diversityStep cap (d, b, counts) rec).2.2 key2 ≤ cap := by
      intro key2
      rcases hg : rec.movie.genres with _ | genres
      · have hpk : Worker.recPrimaryKey rec = none := by
          unfold Worker.recPrimaryKey
          rw [hg]
          rfl
        unfold Worker.diversityStep
        rw [hg]
        dsimp only
        refine ⟨?_, (hinv key2).2⟩
        have hnb : ((none : Option (Option String)) == some key2) = false := rfl
        rw [keyCount_append, hpk, hnb]
        simpa using (hinv key2).1
      · have hpk : Worker.recPrimaryKey rec = some (Worker.primaryGenre genres) := by
          unfold Worker.recPrimaryKey
          rw [hg]
          rfl
        unfold Worker.diversityStep
        rw [hg]
        dsimp only
        split
        · rename_i hcond
          by_cases hk : key2 = Worker.primaryGenre genres
          · constructor
            · rw [hk, keyCount_append, hpk]
              simp [(hinv (Worker.primaryGenre genres)).1]
            · rw [hk]
              simp only [beq_self_eq_true, if_true]
              have hcond2 : counts (Worker.primaryGenre genres) = 0
                  ∨ counts (Worker.primaryGenre genres) < cap := by
                simpa using hcond
              rcases hcond2 with h | h
              · omega
              · omega
          · have hbeq : (key2 == Worker.primaryGenre genres) = false :=
              beq_eq_false_iff_ne.mpr hk
            have hbeq2 : (Worker.recPrimaryKey rec == some key2) = false := by
              rw [hpk]
              exact beq_eq_false_iff_ne.mpr
                (fun hcontra => hk (Option.some.inj hcontra).symm)
            constructor
            · rw [keyCount_append, hbeq2]
              simp [hbeq, (hinv key2).1]
            · simp [hbeq, (hinv key2).2]
        · exact ⟨(hinv key2).1, (hinv key2).2⟩
    have := ih (Worker.diversityStep cap (d, b, counts) rec).1
      (Worker.diversityStep cap (d, b, counts) rec).2.1
      (Worker.diversityStep cap (d, b, counts) rec).2.2 hpres key
    rwa [heta] at this

/-- C7 (amended): the primary walk of the worker diversity pass admits at
most `Math.ceil(count / 3)` recommendations per primary category, and
whenever the primary walk alone already fills the requested count the
final list of `diversityPass` coincides with it, so the cap then holds for
the returned list; when the walk falls short of `count`, the deferred
refill appends items without re-checking the cap (see the
counterexample). -/
theorem c7_diversity_primary_cap (recommendations : List Worker.WRec) (count : Nat)
    (g : String) (hpos : 0 < count) :
    Worker.primaryCount (Worker.diversityFold recommendations ((count + 2) / 3)).1 g ≤
      (count + 2) / 3
    ∧ (count ≤ (Worker.diversityFold recommendations ((count + 2) / 3)).1.length →
        Worker.primaryCount (Worker.diversityPass recommendations count) g ≤
          (count + 2) / 3) := by
  have hcap : 0 < (count + 2) / 3 := by omega
  have hinv0 : ∀ key, (fun _ : Option String => 0) key = Worker.keyCount [] key
      ∧ (fun _ : Option String => 0) key ≤ (count + 2) / 3 := by
    intro key
    exact ⟨rfl, Nat.zero_le _⟩
  have hfold := diversityFold_inv ((count + 2) / 3) hcap recommendations [] []
    (fun _ => 0) hinv0 (some g)
  have hbound : Worker.primaryCount
      (Worker.diversityFold recommendations ((count + 2) / 3)).1 g ≤ (count + 2) / 3 := by
    unfold Worker.primaryCount
    unfold Worker.diversityFold
    rw [← hfold.1]
    exact hfold.2
  refine ⟨hbound, ?_⟩
  intro hge
  have hzero : count -
      (Worker.diversityFold recommendations ((count + 2) / 3)).1.length = 0 := by omega
  simp only [Worker.diversityPass]
  rw [hzero]
  simpa using hbound

/-- Witness for C7 at a three-element recommendation list with distinct
primary categories and count 3. -/
theorem c7_diversity_primary_cap_witness :
    0 < 3
    ∧ (Worker.primaryCount (Worker.diversityFold Worker.c7WitnessRecs ((3 + 2) / 3)).1 "A" ≤
        (3 + 2) / 3
      ∧ (3 ≤ (Worker.diversityFold Worker.c7WitnessRecs ((3 + 2) / 3)).1.length →
          Worker.primaryCount (Worker.diversityPass Worker.c7WitnessRecs 3) "A" ≤
            (3 + 2) / 3)) :=
  ⟨by decide, c7_diversity_primary_cap Worker.c7WitnessRecs 3 "A" (by decide)⟩

/-- C7 counterexample: with requested count 3 — cap `Math.ceil(3/3)` = 1 —
and five qualifying candidates spanning three primary categories, the
worker call still returns three category-A recommendations: only the top
`count` ranked items enter the diversity pass, and the deferred-item
refill then re-admits the capped items. -/
theorem c7_counterexample :
    (Worker.candidatePrimaryGenres (Worker.applyFilters
        (Worker.c7Db.movies.filter fun m => !(Worker.truthyNum m.user_rating))
        { count := some 3 })).length = 3
    ∧ Worker.effectiveCount (some 3) = 3
    ∧ (3 + 2) / 3 = 1
    ∧ Worker.primaryCount
        ((Worker.generateRecommendations Worker.c7Db none
          { count := some 3 } 0 false).1).recs "A" = 3 := by
  refine ⟨by decide, rfl, rfl, ?_⟩
  have heff : Worker.effectiveCount (some 3) = 3 := rfl
  have hdbp : Worker.c7Db.profile = some Worker.c7Profile := rfl
  have hmov : Worker.c7Db.movies = Worker.c7Movies := rfl
  have hnc : ∀ ctx, Worker.getCachedRecommendations Worker.c7Db.cache ctx 0 = none := by
    intro ctx
    simp [Worker.getCachedRecommendations, Worker.c7Db, List.mergeSort]
  have hur : ∀ i g, (Worker.c7Movie i g).user_rating = none := fun _ _ => rfl
  have hgen : ∀ i g, (Worker.c7Movie i g).genres = some [g] := fun _ _ => rfl
  have haf : ∀ l : List Worker.WMovie,
      Worker.applyFilters l { count := some 3 } = l := fun _ => rfl
  have hlen : Worker.c7Profile.genres.length = 3 := rfl
  have hlA : Worker.lookupD Worker.c7Profile.genres "A" = 1 := rfl
  have hlB : Worker.lookupD Worker.c7Profile.genres "B" = 1 := rfl
  have hlC : Worker.lookupD Worker.c7Profile.genres "C" = 1 := rfl
  have hA : ∀ i, Worker.calculateBasicMatchScore (Worker.c7Movie i "A")
      Worker.c7Profile = 1 := by
    intro i
    norm_num [Worker.calculateBasicMatchScore, Worker.c7Movie, hlen, hlA,
      List.filterMap_cons]
  have hB : ∀ i, Worker.calculateBasicMatchScore (Worker.c7Movie i "B")
      Worker.c7Profile = 1 := by
    intro i
    norm_num [Worker.calculateBasicMatchScore, Worker.c7Movie, hlen, hlB,
      List.filterMap_cons]
  have hC : ∀ i, Worker.calculateBasicMatchScore (Worker.c7Movie i "C")
      Worker.c7Profile = 1 := by
    intro i
    norm_num [Worker.calculateBasicMatchScore, Worker.c7Movie, hlen, hlC,
      List.filterMap_cons]
  have hOb : ∀ s t : String, ((some s : Option String) == some t) = (s == t) :=
    fun _ _ => rfl
  have hpair : List.Pairwise (fun (a b : Worker.WMovie × ℚ) =>
      (decide (b.2 ≤ a.2)) = true)
      [(Worker.c7Movie 11 "A", (1 : ℚ)), (Worker.c7Movie 12 "A", 1),
       (Worker.c7Movie 13 "A", 1), (Worker.c7Movie 14 "B", 1),
       (Worker.c7Movie 15 "C", 1)] := by
    norm_num [List.pairwise_cons]
  have hsorted := List.mergeSort_of_sorted hpair
  simp [Worker.generateRecommendations, hdbp, hmov, heff, hnc, haf, hur, hgen,
    Worker.c7Movies, Worker.truthyNum, hA, hB, hC, hsorted,
    Worker.rankWithAI, Worker.fallbackRecommendations, Worker.diversityPass,
    Worker.diversityFold, Worker.diversityStep, Worker.primaryGenre, hOb,
    Worker.primaryCount, Worker.keyCount, Worker.recPrimaryKey, Worker.WOutcome.recs]

/-- C10 counterexample: the api engine runs its whole body inside a
try/catch that rethrows, and the cache INSERT is awaited without a local
guard — the identical fresh computation returns a result when the write
succeeds but escapes as an exception when it fails. -/
theorem c10_counterexample :
    ((Api.generateRecommendations Api.twoMovieDb (some [Api.okOracleRec "tt1"])
        {} 0 true).1) = Api.AOutcome.thrown "Failed to save recommendations to cache"
    ∧ ((Api.generateRecommendations Api.twoMovieDb (some [Api.okOracleRec "tt1"])
        {} 0 false).1).isThrownOutcome = false := by
  have heff : Worker.effectiveCount none = 10 := rfl
  constructor
  · simp [Api.generateRecommendations, Api.twoMovieDb, Api.aMovie, Api.aProfile,
      Api.okOracleRec, Api.checkCache, heff, Worker.truthyNum, List.mergeSort,
      Api.generateWithAI]
  · simp [Api.generateRecommendations, Api.twoMovieDb, Api.aMovie, Api.aProfile,
      Api.okOracleRec, Api.checkCache, heff, Worker.truthyNum, List.mergeSort,
      Api.generateWithAI, Api.AOutcome.isThrownOutcome]

/-- C8: the worker engine bounds every returned list by the effective count,
which never exceeds the hard maximum 50; the api engine, however, returns
the validated oracle list without truncation — evaluated here, a requested
count of 1 yields 2 recommendations. -/
theorem c8_count_bound_and_api_excess :
    (∀ (db : Worker.WDb) (oracle : Option (List Worker.OracleRanking))
        (options : Worker.RecOptions) (now : Nat) (wf : Bool),
      ((Worker.generateRecommendations db oracle options now wf).1).recs.length ≤
        Worker.effectiveCount options.count
      ∧ Worker.effectiveCount options.count ≤ 50)
    ∧ Worker.effectiveCount (some 1) = 1
    ∧ ((Api.generateRecommendations Api.twoMovieDb
        (some [Api.okOracleRec "tt1", Api.okOracleRec "tt2"])
        { count := some 1 } 0 false).1).recs.length = 2 := by
  refine ⟨?_, rfl, ?_⟩
  · intro db oracle options now wf
    refine ⟨?_, Nat.min_le_right _ _⟩
    rcases hdbp : db.profile with _ | profile
    · simp [Worker.generateRecommendations, hdbp, Worker.WOutcome.recs]
    rcases hc : Worker.getCachedRecommendations db.cache
        (Worker.buildContext options (Worker.effectiveCount options.count)) now
      with _ | cached
    case some =>
      simp only [Worker.generateRecommendations, hdbp, hc, Worker.WOutcome.recs]
      exact length_cachedResponse_le db cached _
    case none =>
    simp only [Worker.generateRecommendations, hdbp, hc]
    split
    · simp [Worker.WOutcome.recs]
    · split
      · simp [Worker.WOutcome.recs]
      · rename_i recommendations heq
        simp only [Worker.WOutcome.recs]
        apply length_diversityPass_le
        split at heq
        · exact length_aiRecommendations_le heq
        · injection heq with h2
          rw [← h2]
          unfold Worker.fallbackRecommendations
          rw [List.length_map]
          exact List.length_take_le _ _
  · have heff1 : Worker.effectiveCount (some 1) = 1 := rfl
    simp [Api.generateRecommendations, Api.twoMovieDb, Api.aMovie, Api.aProfile,
      Api.okOracleRec, Api.checkCache, heff1, Worker.truthyNum, List.mergeSort,
      Api.generateWithAI, Api.AOutcome.recs]

/-- C2 (amended): on an empty rating history the worker engine
`calculateTasteProfile` returns `getNeutralProfile` (every fixed dimension
0.5) and never an error, while the frontend store `getTasteProfile` returns
a success result whose profile has every fixed dimension 0 (its
`_getEmptyProfile`); neither fixed-variant result carries a confidence
field. -/
theorem c2_empty_history_profiles :
    (∀ movieMap : String → Option Movie, ∀ attr,
        calculateTasteProfile [] movieMap attr = getNeutralProfile attr)
    ∧ (∀ attr, getNeutralProfile attr = 1/2)
    ∧ (DataStore.getTasteProfile []).success = true
    ∧ (∀ attr, (DataStore.getTasteProfile []).data attr = 0) :=
  ⟨fun _ _ => rfl, fun _ => rfl, rfl, fun _ => rfl⟩

/-- C2 counterexample: the frontend fixed-variant builder, cited by the
claim, maps the empty history to a profile whose dimensions are 0, not
0.5. -/
theorem c2_counterexample :
    (DataStore.getTasteProfile []).data Attr.action = 0 ∧ ((0 : ℚ) ≠ 1/2) :=
  ⟨rfl, by norm_num⟩

/-- C4: cosine similarity of a vector with itself is exactly 1 when the
vector has nonzero magnitude, dimension-disjoint vectors (hence disjoint
unit vectors) have similarity exactly 0, and a zero-magnitude input makes
the function return exactly 0 rather than divide by zero. -/
theorem c4_cosine_similarity :
    (∀ p : AttrMap, magnitudeSq p ≠ 0 → calculateCosineSimilarity p p = 1)
    ∧ (∀ p q : AttrMap, (∀ a, p a = 0 ∨ q a = 0) → calculateCosineSimilarity p q = 0)
    ∧ (∀ p q : AttrMap, magnitudeSq p = 0 ∨ magnitudeSq q = 0 →
        calculateCosineSimilarity p q = 0) := by
  have hmag : ∀ p : AttrMap, (0 : ℝ) ≤ ((magnitudeSq p : ℚ) : ℝ) := fun p => by
    exact_mod_cast magnitudeSq_nonneg p
  refine ⟨?_, ?_, ?_⟩
  · intro p hp
    have hs : Real.sqrt ((magnitudeSq p : ℚ) : ℝ) ≠ 0 := by
      intro h
      exact hp (by exact_mod_cast (Real.sqrt_eq_zero (hmag p)).mp h)
    simp only [calculateCosineSimilarity]
    rw [if_neg (by push_neg; exact ⟨hs, hs⟩)]
    have hdot : dotProduct p p = magnitudeSq p := rfl
    rw [hdot, Real.mul_self_sqrt (hmag p)]
    exact div_self (by exact_mod_cast hp)
  · intro p q hdisj
    have hdot : dotProduct p q = 0 := by
      apply List.sum_eq_zero
      intro x hx
      obtain ⟨a, _, rfl⟩ := List.mem_map.mp hx
      rcases hdisj a with h | h <;> simp [h]
    simp only [calculateCosineSimilarity]
    split
    · rfl
    · rw [hdot]
      norm_num
  · intro p q hzero
    have hcond : Real.sqrt ((magnitudeSq p : ℚ) : ℝ) = 0
        ∨ Real.sqrt ((magnitudeSq q : ℚ) : ℝ) = 0 := by
      rcases hzero with h | h
      · left; rw [h]; simp
      · right; rw [h]; simp
    simp only [calculateCosineSimilarity]
    rw [if_pos hcond]

/-- Witness for C4: self-similarity of the Mad Max vector, orthogonality of
the unit action and unit drama vectors, and the zero-vector guard. -/
theorem c4_cosine_similarity_witness :
    (magnitudeSq madMaxAttrs ≠ 0 ∧ calculateCosineSimilarity madMaxAttrs madMaxAttrs = 1)
    ∧ ((∀ a, vectorB a = 0 ∨ vectorC a = 0)
        ∧ calculateCosineSimilarity vectorB vectorC = 0)
    ∧ (magnitudeSq zeroVector = 0
        ∧ calculateCosineSimilarity zeroVector madMaxAttrs = 0) := by
  have h1 : magnitudeSq madMaxAttrs ≠ 0 := by
    norm_num [magnitudeSq, FILM_ATTRIBUTES, madMaxAttrs]
  have h2 : ∀ a, vectorB a = 0 ∨ vectorC a = 0 := by
    intro a; cases a <;> simp [vectorB, vectorC]
  have h3 : magnitudeSq zeroVector = 0 := by
    norm_num [magnitudeSq, FILM_ATTRIBUTES, zeroVector]
  exact ⟨⟨h1, c4_cosine_similarity.1 madMaxAttrs h1⟩,
    ⟨h2, c4_cosine_similarity.2.1 vectorB vectorC h2⟩,
    ⟨h3, c4_cosine_similarity.2.2 zeroVector madMaxAttrs (Or.inl h3)⟩⟩

/-- C5: whenever the profile passes the engine neutrality test, the very
same `findSimilarMovies` call scores every returned movie by
`calculateAttributeStrength` instead of cosine similarity, and that
strength is exactly `mean(|itemScore(d) - 0.5|) / 0.5` over the fixed
dimensions. -/
theorem c5_neutral_profile_substitution (userProfile : AttrMap) (allMovies : List Movie)
    (topN : Nat) (excludeMovieIds : List String)
    (hneutral : isProfileNeutral userProfile = true) :
    (∀ sm ∈ findSimilarMovies userProfile allMovies topN excludeMovieIds,
        sm.similarity = ((calculateAttributeStrength sm.movie.attributes : ℚ) : ℝ))
    ∧ (∀ attributes : AttrMap,
        calculateAttributeStrength attributes =
          ((FILM_ATTRIBUTES.map fun a => |attributes a - 1/2|).sum
            / (FILM_ATTRIBUTES.length : ℚ)) / (1/2)) := by
  constructor
  · intro sm hsm
    by_cases hempty : allMovies.isEmpty = true
    · simp [findSimilarMovies, hempty] at hsm
    · simp only [findSimilarMovies, hempty, if_false] at hsm
      have hsm2 := List.mem_mergeSort.mp (List.mem_of_mem_take hsm)
      obtain ⟨movie, _, rfl⟩ := List.mem_map.mp hsm2
      simp [hneutral]
  · intro attributes
    simp only [calculateAttributeStrength, List.map_map, List.length_map]
    rfl

/-- Witness for C5: the engine neutral profile passes the neutrality test
and the ranking over the sample catalog then returns attribute-strength
scores. -/
theorem c5_neutral_profile_substitution_witness :
    isProfileNeutral getNeutralProfile = true
    ∧ (∀ sm ∈ findSimilarMovies getNeutralProfile SAMPLE_MOVIES 5 [],
        sm.similarity = ((calculateAttributeStrength sm.movie.attributes : ℚ) : ℝ)) := by
  have hn : isProfileNeutral getNeutralProfile = true := by
    norm_num [isProfileNeutral, getNeutralProfile, FILM_ATTRIBUTES]
  exact ⟨hn, (c5_neutral_profile_substitution getNeutralProfile SAMPLE_MOVIES 5 [] hn).1⟩

/-- C9: both discovered-variant profile builders return the explicit
insufficient-data object — carrying the observed rated-movie count and the
required minimum 20 — whenever fewer than 20 movies are rated, without
computing a profile and without an exception (the functions are total and
the guard precedes every other step). -/
theorem c9_insufficient_data
    (db : Worker.WDb) (adb : Api.ADb)
    (oracleW : Worker.ThemesOutcome) (oracleA : Api.AThemesOutcome)
    (hw : (db.movies.filter fun m => m.user_rating.isSome).length < Worker.MIN_SAMPLE_SIZE)
    (ha : (adb.movies.filter fun m => m.user_rating.isSome).length < Api.MIN_SAMPLE_SIZE) :
    Worker.MIN_SAMPLE_SIZE = 20
    ∧ Api.MIN_SAMPLE_SIZE = 20
    ∧ Worker.calculateTasteProfile db oracleW =
        .insufficient
          ("Insufficient data: need at least " ++ toString Worker.MIN_SAMPLE_SIZE ++
            " rated movies, found " ++
            toString (db.movies.filter fun m => m.user_rating.isSome).length)
          (db.movies.filter fun m => m.user_rating.isSome).length Worker.MIN_SAMPLE_SIZE
    ∧ Api.calculateTasteProfile adb oracleA =
        .insufficient "Insufficient data for taste profile calculation"
          (adb.movies.filter fun m => m.user_rating.isSome).length Api.MIN_SAMPLE_SIZE := by
  refine ⟨rfl, rfl, ?_, ?_⟩
  · unfold Worker.calculateTasteProfile
    simp only [List.length_mergeSort]
    rw [if_pos hw]
  · unfold Api.calculateTasteProfile
    simp only [List.length_mergeSort]
    rw [if_pos ha]

/-- Witness for C9 at databases holding exactly 10 rated movies. -/
theorem c9_insufficient_data_witness :
    (Worker.tenRatedDb.movies.filter fun m => m.user_rating.isSome).length <
      Worker.MIN_SAMPLE_SIZE
    ∧ (Api.tenRatedADb.movies.filter fun m => m.user_rating.isSome).length <
      Api.MIN_SAMPLE_SIZE
    ∧ Worker.calculateTasteProfile Worker.tenRatedDb .threw =
        .insufficient
          ("Insufficient data: need at least " ++ toString Worker.MIN_SAMPLE_SIZE ++
            " rated movies, found " ++
            toString (Worker.tenRatedDb.movies.filter fun m => m.user_rating.isSome).length)
          (Worker.tenRatedDb.movies.filter fun m => m.user_rating.isSome).length
          Worker.MIN_SAMPLE_SIZE
    ∧ Api.calculateTasteProfile Api.tenRatedADb .threw =
        .insufficient "Insufficient data for taste profile calculation"
          (Api.tenRatedADb.movies.filter fun m => m.user_rating.isSome).length
          Api.MIN_SAMPLE_SIZE := by
  have h1 : (Worker.tenRatedDb.movies.filter fun m => m.user_rating.isSome).length <
      Worker.MIN_SAMPLE_SIZE := by decide
  have h2 : (Api.tenRatedADb.movies.filter fun m => m.user_rating.isSome).length <
      Api.MIN_SAMPLE_SIZE := by decide
  have h := c9_insufficient_data Worker.tenRatedDb Api.tenRatedADb .threw .threw h1 h2
  exact ⟨h1, h2, h.2.2.1, h.2.2.2⟩

end TasteMap
